import Mathlib

/-!
A verification development for the template-driven project-scaffolding core
(`templates/mod.rs`, `templates/network.rs`, `templates/cache.rs`,
`templates/core.rs`).

Modelling conventions:
* Rust `f32` progress values are modelled by `F32`: NaN, the two infinities,
  and finite values as exact rationals.  The progress constants appearing in
  the source (0.0, 0.1, 0.2, 0.5, 0.6, 0.8, 0.9, 1.0) are modelled by the
  corresponding rationals; this is order-faithful (the comparative order of the
  f32 literals agrees with the order of the rationals).
* Rust `u64` arithmetic: `delay * 2` wraps modulo 2^64 (release-profile
  semantics), written explicitly as `% 2 ^ 64`.
* The filesystem is a state (`FS`) holding file contents and directories,
  together with failure oracles describing which operations the OS makes fail.
  File contents are `FileData`; the serde_json round-trip for the cache
  metadata (external library code) is modelled by the dedicated constructor
  `FileData.meta`, which a read parses back exactly; any other content is
  unparseable ("corrupt") metadata.
* Subprocesses and progress-event emission are external effects: the scaffold
  engine is embedded in a state monad `M` threading the filesystem, the list
  of emitted progress events, and the list of spawned commands; subprocess
  results come from an oracle in `Env`.
* The `#[cfg(target_os = "windows")]` variants of `create_project_from_template`
  and `download_springboot` are embedded (the surrounding code shells out via
  `cmd /C` throughout, i.e. targets Windows).
-/

/-! ## f32 model -/

/-- A model of Rust `f32` sufficient for the progress fields: NaN, infinities,
and finite values represented exactly as rationals. -/
inductive F32 where
  | nan : F32
  | inf : F32
  | ninf : F32
  | fin (q : ℚ) : F32
deriving DecidableEq

/-- IEEE-754 `<` on the model: every comparison involving NaN is false. -/
def F32.lt : F32 → F32 → Bool
  | .nan, _ => false
  | _, .nan => false
  | .ninf, .ninf => false
  | .ninf, _ => true
  | _, .ninf => false
  | .inf, _ => false
  | .fin _, .inf => true
  | .fin a, .fin b => decide (a < b)

/-- IEEE-754 `<=` on the model: every comparison involving NaN is false. -/
def F32.leb : F32 → F32 → Bool
  | .nan, _ => false
  | _, .nan => false
  | .ninf, _ => true
  | _, .ninf => false
  | _, .inf => true
  | .inf, .fin _ => false
  | .fin a, .fin b => decide (a ≤ b)

/-- Rust `f32::clamp(self, min, max)`: `if self < min { self = min }
if self > max { self = max } self`.  NaN compares false with everything, so a
NaN input is returned unchanged. -/
def F32.clamp (x lo hi : F32) : F32 :=
  let x1 := if F32.lt x lo then lo else x
  if F32.lt hi x1 then hi else x1

/-- The value is a finite rational in the closed unit interval. -/
def F32.inUnit (x : F32) : Prop := ∃ q : ℚ, x = F32.fin q ∧ 0 ≤ q ∧ q ≤ 1

/-- The fractional f32 progress literals of the source, as exact rationals
written in normal form (so that kernel evaluation never needs `Rat.div`). -/
def q0_1 : ℚ := ⟨1, 10, by decide, by decide⟩

def q0_2 : ℚ := ⟨1, 5, by decide, by decide⟩

def q0_5 : ℚ := ⟨1, 2, by decide, by decide⟩

def q0_6 : ℚ := ⟨3, 5, by decide, by decide⟩

def q0_8 : ℚ := ⟨4, 5, by decide, by decide⟩

def q0_9 : ℚ := ⟨9, 10, by decide, by decide⟩

/-! ## TemplateProgress (`templates/mod.rs`) -/

/-- `ProgressStage` from `templates/mod.rs`. -/
inductive ProgressStage where
  | Initializing
  | Downloading
  | Extracting
  | Installing
  | Complete
  | Error
deriving DecidableEq

/-- `TemplateProgress` from `templates/mod.rs`. -/
structure TemplateProgress where
  stage : ProgressStage
  progress : F32
  message : String
deriving DecidableEq

/-- `TemplateProgress::new`: clamps `progress` to `[0.0, 1.0]`. -/
def TemplateProgress.new (stage : ProgressStage) (progress : F32) (message : String) :
    TemplateProgress :=
  { stage := stage, progress := F32.clamp progress (F32.fin 0) (F32.fin 1), message := message }

/-- `TemplateProgress::initializing`. -/
def TemplateProgress.initializing (message : String) : TemplateProgress :=
  TemplateProgress.new .Initializing (F32.fin 0) message

/-- `TemplateProgress::downloading`. -/
def TemplateProgress.downloading (progress : F32) (message : String) : TemplateProgress :=
  TemplateProgress.new .Downloading progress message

/-- `TemplateProgress::extracting`. -/
def TemplateProgress.extracting (progress : F32) (message : String) : TemplateProgress :=
  TemplateProgress.new .Extracting progress message

/-- `TemplateProgress::installing`. -/
def TemplateProgress.installing (progress : F32) (message : String) : TemplateProgress :=
  TemplateProgress.new .Installing progress message

/-- `TemplateProgress::complete`: stage Complete, progress 1.0. -/
def TemplateProgress.complete (message : String) : TemplateProgress :=
  TemplateProgress.new .Complete (F32.fin 1) message

/-- `TemplateProgress::error`: stage Error, progress 0.0. -/
def TemplateProgress.error (message : String) : TemplateProgress :=
  TemplateProgress.new .Error (F32.fin 0) message

/-! ## Retry with exponential backoff (`templates/network.rs`) -/

/-- `RetryConfig` from `templates/network.rs`; the Rust fields are `u32`/`u64`. -/
structure RetryConfig where
  max_retries : Nat
  initial_delay_ms : Nat
  max_delay_ms : Nat
deriving DecidableEq

/-- `RetryConfig::default()`: 3 retries, 1000 ms initial delay, 8000 ms cap. -/
def RetryConfig.default : RetryConfig :=
  { max_retries := 3, initial_delay_ms := 1000, max_delay_ms := 8000 }

/-- Rust `delay * 2` on `u64` (wrapping, release-profile semantics). -/
def u64Double (d : Nat) : Nat := d * 2 % 2 ^ 64

/--
The loop of `retry_with_backoff`.  The mutable closure `operation` is modelled
as a function of the number of earlier invocations; `attempt` is the current
0-indexed attempt, `remaining` the number of attempts still allowed after this
one (`max_retries - attempt`), and `delay` the current backoff delay.

Returns the final result, the total number of invocations of the operation,
and the list of delays slept (in order).
-/
def retryLoop {T E : Type} (op : Nat → Except E T) (maxDelay : Nat) :
    Nat → Nat → Nat → Except E T × Nat × List Nat
  | attempt, 0, _delay =>
    -- `attempt == config.max_retries`: the result of this call is returned
    -- unchanged, success or failure; nothing more is slept.
    (op attempt, attempt + 1, [])
  | attempt, remaining + 1, delay =>
    match op attempt with
    | .ok r => (.ok r, attempt + 1, [])
    | .error _ =>
      let rest := retryLoop op maxDelay (attempt + 1) remaining (min (u64Double delay) maxDelay)
      (rest.1, rest.2.1, delay :: rest.2.2)

/-- `retry_with_backoff` from `templates/network.rs`: up to
`max_retries + 1` invocations, sleeping `delay` then doubling it capped at
`max_delay_ms` between consecutive attempts. -/
def retry_with_backoff {T E : Type} (op : Nat → Except E T) (config : RetryConfig) :
    Except E T × Nat × List Nat :=
  retryLoop op config.max_delay_ms 0 config.max_retries config.initial_delay_ms

/-! ## Lemmas about the retry loop -/

theorem retryLoop_allFail {T E : Type} (op : Nat → Except E T) (maxDelay : Nat)
    (h : ∀ i, (op i).isOk = false) :
    ∀ (remaining attempt delay : Nat),
      (retryLoop op maxDelay attempt remaining delay).1 = op (attempt + remaining)
      ∧ (retryLoop op maxDelay attempt remaining delay).2.1 = attempt + remaining + 1 := by
  intro remaining
  induction remaining with
  | zero => intro attempt delay; simp [retryLoop]
  | succ n ih =>
    intro attempt delay
    have hop := h attempt
    cases hopE : op attempt with
    | ok r => rw [hopE] at hop; simp [Except.isOk, Except.toBool] at hop
    | error e =>
      have := ih (attempt + 1) (min (u64Double delay) maxDelay)
      simp only [retryLoop, hopE]
      refine ⟨?_, ?_⟩
      · rw [this.1]; ring_nf
      · rw [this.2]; ring_nf

theorem min_pow_absorb (a M k : Nat) :
    min (a * 2 ^ k) M = min (min a M * 2 ^ k) M := by
  rcases Nat.le_total a M with hle | hle
  · rw [Nat.min_eq_left hle]
  · rw [Nat.min_eq_right hle]
    have h1 : M ≤ a * 2 ^ k :=
      le_trans hle (Nat.le_mul_of_pos_right a (Nat.pos_pow_of_pos k (by norm_num)))
    have h2 : M ≤ M * 2 ^ k :=
      Nat.le_mul_of_pos_right M (Nat.pos_pow_of_pos k (by norm_num))
    rw [Nat.min_eq_right h1, Nat.min_eq_right h2]

theorem retryLoop_delays {T E : Type} (op : Nat → Except E T) (maxDelay : Nat)
    (h : ∀ i, (op i).isOk = false) (hM : maxDelay < 2 ^ 63) :
    ∀ (remaining attempt delay : Nat), delay ≤ maxDelay →
      (retryLoop op maxDelay attempt remaining delay).2.2
        = (List.range remaining).map (fun i => min (delay * 2 ^ i) maxDelay) := by
  intro remaining
  induction remaining with
  | zero => intro attempt delay _; simp [retryLoop]
  | succ n ih =>
    intro attempt delay hdelay
    have hop := h attempt
    cases hopE : op attempt with
    | ok r => rw [hopE] at hop; simp [Except.isOk, Except.toBool] at hop
    | error e =>
      have hdub : u64Double delay = delay * 2 := by
        have : delay * 2 < 2 ^ 64 := by
          have h63 : delay < 2 ^ 63 := lt_of_le_of_lt hdelay hM
          calc delay * 2 < 2 ^ 63 * 2 := by omega
            _ = 2 ^ 64 := by norm_num
        simpa [u64Double] using Nat.mod_eq_of_lt this
      have hnext : min (u64Double delay) maxDelay ≤ maxDelay := Nat.min_le_right _ _
      have ihv := ih (attempt + 1) (min (u64Double delay) maxDelay) hnext
      simp only [retryLoop, hopE]
      rw [ihv, List.range_succ_eq_map, List.map_cons, List.map_map]
      refine congrArg₂ _ ?_ ?_
      · simp [Nat.min_eq_left hdelay]
      · refine List.map_congr_left ?_
        intro i _
        simp only [Function.comp, hdub]
        have : delay * 2 ^ (i + 1) = delay * 2 * 2 ^ i := by ring
        rw [this, min_pow_absorb (delay * 2) maxDelay i]

/-! ## C5: retry exhaustion -/

/-- C5: for every `RetryConfig` with `max_retries = n`, an operation failing on
every attempt is invoked exactly `n + 1` times and the error of the final
attempt is returned unchanged. -/
theorem C5_retry_exhaustion {T E : Type} (cfg : RetryConfig) (op : Nat → Except E T)
    (hfail : ∀ i, (op i).isOk = false) :
    (retry_with_backoff op cfg).1 = op cfg.max_retries
    ∧ (retry_with_backoff op cfg).2.1 = cfg.max_retries + 1 := by
  have := retryLoop_allFail op cfg.max_delay_ms hfail cfg.max_retries 0 cfg.initial_delay_ms
  simpa [retry_with_backoff] using this

theorem C5_retry_exhaustion_witness :
    (retry_with_backoff (fun _ => (Except.error "always" : Except String Nat))
        ⟨2, 5, 100⟩).1 = Except.error "always"
    ∧ (retry_with_backoff (fun _ => (Except.error "always" : Except String Nat))
        ⟨2, 5, 100⟩).2.1 = 3 :=
  C5_retry_exhaustion ⟨2, 5, 100⟩ (fun _ => Except.error "always") (fun _ => rfl)

/-! ## C3: backoff delay sequence -/

/-- C3 (amended): with an always-failing operation and a configuration whose
initial delay does not exceed the cap (and whose cap keeps the `u64` doubling
from wrapping), the delay slept before attempt `i` (0-indexed, `i ≥ 1`) is
`min(initial_delay_ms * 2 ^ (i - 1), max_delay_ms)`; with the default
configuration the slept delays are exactly 1000, 2000, 4000 (three sleeps for
`max_retries = 3`).  When `initial_delay_ms > max_delay_ms` the first delay is
`initial_delay_ms` itself, uncapped (see the counterexample). -/
theorem C3_backoff_delays {T E : Type} (cfg : RetryConfig) (op : Nat → Except E T)
    (hfail : ∀ i, (op i).isOk = false)
    (hinit : cfg.initial_delay_ms ≤ cfg.max_delay_ms)
    (hmax : cfg.max_delay_ms < 2 ^ 63) :
    (retry_with_backoff op cfg).2.2
      = (List.range cfg.max_retries).map
          (fun i => min (cfg.initial_delay_ms * 2 ^ i) cfg.max_delay_ms)
    ∧ (retry_with_backoff op RetryConfig.default).2.2 = [1000, 2000, 4000] := by
  constructor
  · exact retryLoop_delays op cfg.max_delay_ms hfail hmax cfg.max_retries 0
      cfg.initial_delay_ms hinit
  · have := retryLoop_delays op 8000 hfail (by norm_num) 3 0 1000 (by norm_num)
    simp only [retry_with_backoff, RetryConfig.default]
    rw [this]
    decide

theorem C3_backoff_delays_witness :
    (retry_with_backoff (fun _ => (Except.error "boom" : Except String Nat))
        ⟨3, 1000, 3000⟩).2.2
      = (List.range 3).map (fun i => min (1000 * 2 ^ i) 3000)
    ∧ (retry_with_backoff (fun _ => (Except.error "boom" : Except String Nat))
        RetryConfig.default).2.2 = [1000, 2000, 4000] :=
  C3_backoff_delays ⟨3, 1000, 3000⟩ (fun _ => Except.error "boom") (fun _ => rfl)
    (by norm_num) (by norm_num)

/-- C3 counterexample: with `initial_delay_ms = 10000 > max_delay_ms = 8000`
and an always-failing operation, the delay slept before attempt 1 is 10000,
not `min(10000 * 2 ^ 0, 8000) = 8000` as the claim requires: the first delay
is never capped by the code. -/
theorem C3_counterexample :
    (retry_with_backoff (fun _ => (Except.error "boom" : Except String Nat))
        ⟨1, 10000, 8000⟩).2.2 = [10000]
    ∧ (10000 : Nat) ≠ min (10000 * 2 ^ 0) 8000 := by
  refine ⟨rfl, by norm_num⟩

/-! ## C9: TemplateProgress invariants -/

/-- C9 (amended): `TemplateProgress::new` clamps every non-NaN input to
`[0.0, 1.0]` (a NaN input propagates, see the counterexample); the `complete`
constructor carries progress exactly 1.0, and the `error` and `initializing`
constructors carry progress exactly 0.0. -/
theorem C9_progress_invariants (s : ProgressStage) (x : F32) (m : String)
    (hx : x ≠ F32.nan) :
    (TemplateProgress.new s x m).progress.inUnit
    ∧ (TemplateProgress.complete m).progress = F32.fin 1
    ∧ (TemplateProgress.error m).progress = F32.fin 0
    ∧ (TemplateProgress.initializing m).progress = F32.fin 0 := by
  refine ⟨?_, rfl, rfl, rfl⟩
  cases x with
  | nan => exact absurd rfl hx
  | inf => exact ⟨1, by simp [TemplateProgress.new, F32.clamp, F32.lt], by norm_num, le_refl 1⟩
  | ninf => exact ⟨0, by simp [TemplateProgress.new, F32.clamp, F32.lt], le_refl 0, by norm_num⟩
  | fin q =>
    simp only [TemplateProgress.new, F32.clamp, F32.lt]
    by_cases h0 : q < 0
    · refine ⟨0, ?_, le_refl 0, by norm_num⟩
      simp [h0]
    · by_cases h1 : 1 < q
      · refine ⟨1, ?_, by norm_num, le_refl 1⟩
        simp [h0, h1]
      · refine ⟨q, ?_, le_of_not_lt h0, le_of_not_lt h1⟩
        simp [h0, h1]

theorem C9_progress_invariants_witness :
    (TemplateProgress.new .Downloading (F32.fin ⟨7, 2, by decide, by decide⟩) "m").progress.inUnit
    ∧ (TemplateProgress.complete "m").progress = F32.fin 1
    ∧ (TemplateProgress.error "m").progress = F32.fin 0
    ∧ (TemplateProgress.initializing "m").progress = F32.fin 0 :=
  C9_progress_invariants .Downloading (F32.fin ⟨7, 2, by decide, by decide⟩) "m" (by simp)

/-- C9 counterexample: `f32::clamp` propagates NaN, so
`TemplateProgress::new(stage, f32::NAN, msg)` carries progress NaN, which is
not in `[0, 1]`: the claim "progress in [0,1] ... for any input float" fails
at NaN. -/
theorem C9_counterexample :
    (TemplateProgress.new .Downloading F32.nan "m").progress = F32.nan
    ∧ ¬ (TemplateProgress.new .Downloading F32.nan "m").progress.inUnit := by
  constructor
  · rfl
  · intro ⟨q, hq, _, _⟩
    rw [show (TemplateProgress.new .Downloading F32.nan "m").progress = F32.nan from rfl] at hq
    exact absurd hq.symm (by simp)

/-! ## Filesystem model -/

/-- A filesystem path, as a list of components.  `Path::join` appends a
component; `file_name()` is the last component. -/
abbrev PathBuf := List String

/-- `CachedTemplate` from `templates/cache.rs`. -/
structure CachedTemplate where
  id : String
  version : String
  cached_at : Int
  file_path : PathBuf
  size_bytes : Nat
deriving DecidableEq

/-- `CacheMetadata` from `templates/cache.rs`; the `HashMap<String,
CachedTemplate>` is modelled as an association list (insert overwrites). -/
structure CacheMetadata where
  templates : List (String × CachedTemplate)
deriving DecidableEq

/-- `HashMap::insert`: overwrite any existing binding of the key. -/
def mapInsert (k : String) (v : CachedTemplate) (m : List (String × CachedTemplate)) :
    List (String × CachedTemplate) :=
  (k, v) :: m.filter (fun p => p.1 != k)

/-- Contents of a file.  `meta` holds a parsed `CacheMetadata` value: it stands
for the serde_json rendering of that value, which parses back to exactly the
value (the JSON round-trip itself is external library code); `text` and `bin`
contents fail to parse as metadata ("corrupt"). -/
inductive FileData where
  | text (s : String)
  | meta (m : CacheMetadata)
  | bin (size : Nat)
deriving DecidableEq

/-- `serde_json::from_str::<CacheMetadata>` on a file's contents. -/
def parseMetadata : FileData → Option CacheMetadata
  | .meta m => some m
  | _ => none

/-- Byte length reported by `std::fs::metadata(..).len()`. -/
def FileData.byteSize : FileData → Nat
  | .text s => s.length
  | .meta _ => 0
  | .bin n => n

/--
The filesystem: file contents, existing directories, and failure oracles
giving the OS error (if any) each primitive operation hits.
-/
structure FS where
  files : PathBuf → Option FileData
  dirs : PathBuf → Bool
  failCreateDir : PathBuf → Option String
  failRead : PathBuf → Option String
  failWrite : PathBuf → Option String
  failCopy : PathBuf → PathBuf → Option String

/-- An empty filesystem with no failures (used for concrete witnesses). -/
def fsEmpty : FS :=
  { files := fun _ => none, dirs := fun _ => false,
    failCreateDir := fun _ => none, failRead := fun _ => none,
    failWrite := fun _ => none, failCopy := fun _ _ => none }

/-- `Path::exists`: true if a file or a directory is present. -/
def FS.existsPath (fs : FS) (p : PathBuf) : Bool := (fs.files p).isSome || fs.dirs p

/-- `std::fs::create_dir_all`. -/
def FS.create_dir_all (fs : FS) (p : PathBuf) : Except String FS :=
  match fs.failCreateDir p with
  | some e => .error e
  | none => .ok { fs with dirs := fun q => q == p || fs.dirs q }

/-- `std::fs::read_to_string` (the contents stand for the produced string). -/
def FS.read_to_string (fs : FS) (p : PathBuf) : Except String FileData :=
  match fs.failRead p with
  | some e => .error e
  | none =>
    match fs.files p with
    | some d => .ok d
    | none => .error "No such file or directory (os error 2)"

/-- `std::fs::write`. -/
def FS.write (fs : FS) (p : PathBuf) (d : FileData) : Except String FS :=
  match fs.failWrite p with
  | some e => .error e
  | none => .ok { fs with files := fun q => if q = p then some d else fs.files q }

/-- `std::fs::copy`. -/
def FS.copy (fs : FS) (src dst : PathBuf) : Except String FS :=
  match fs.failCopy src dst with
  | some e => .error e
  | none =>
    match fs.files src with
    | some d => .ok { fs with files := fun q => if q = dst then some d else fs.files q }
    | none => .error "No such file or directory (os error 2)"

/-- `std::fs::metadata(p).map(|m| m.len()).unwrap_or(0)`. -/
def FS.fileSize (fs : FS) (p : PathBuf) : Nat :=
  match fs.files p with
  | some d => d.byteSize
  | none => 0

/-! ## TemplateCache (`templates/cache.rs`) -/

/-- `TemplateCache` from `templates/cache.rs`. -/
structure TemplateCache where
  cache_dir : PathBuf
  metadata : CacheMetadata
deriving DecidableEq

/--
`TemplateCache::new(app_data_dir)`: compute `cache_dir`, create it if absent
(failure is fatal: "Failed to create cache dir"), then, if `metadata.json`
exists, read it (a read failure is fatal: "Failed to read metadata") and parse
it, falling back to the empty map when parsing fails; if the file does not
exist, start with the empty map.
-/
def TemplateCache.new (app_data_dir : PathBuf) (fs : FS) :
    Except String (TemplateCache × FS) :=
  match (if fs.existsPath (app_data_dir ++ ["template_cache"]) then .ok fs
         else match fs.create_dir_all (app_data_dir ++ ["template_cache"]) with
              | .error e => .error ("Failed to create cache dir: " ++ e)
              | .ok fs' => .ok fs' : Except String FS) with
  | .error e => .error e
  | .ok fs1 =>
    if fs1.existsPath (app_data_dir ++ ["template_cache"] ++ ["metadata.json"]) then
      match fs1.read_to_string (app_data_dir ++ ["template_cache"] ++ ["metadata.json"]) with
      | .error e => .error ("Failed to read metadata: " ++ e)
      | .ok d =>
        .ok (⟨app_data_dir ++ ["template_cache"], (parseMetadata d).getD ⟨[]⟩⟩, fs1)
    else .ok (⟨app_data_dir ++ ["template_cache"], ⟨[]⟩⟩, fs1)

/-- `TemplateCache::get`: look up by id, return the path only on an exact
version match. -/
def TemplateCache.get (c : TemplateCache) (template_id version : String) : Option PathBuf :=
  match c.metadata.templates.lookup template_id with
  | some t => if t.version = version then some t.file_path else none
  | none => none

/-- `TemplateCache::save_metadata`: persist the map to `metadata.json`. -/
def TemplateCache.save_metadata (c : TemplateCache) (fs : FS) : Except String FS :=
  match fs.write (c.cache_dir ++ ["metadata.json"]) (.meta c.metadata) with
  | .error e => .error ("Failed to write metadata: " ++ e)
  | .ok fs' => .ok fs'

/--
`TemplateCache::store`: compute the source's size, copy it into the cache
directory under its original file name when not already there, overwrite the
map entry for `template_id`, persist the metadata.
-/
def TemplateCache.store (c : TemplateCache) (fs : FS) (template_id version : String)
    (file_path : PathBuf) (now : Int) : Except String (TemplateCache × FS) :=
  match file_path.getLast? with
  | none => .error "Invalid file path"
  | some file_name =>
    match (if file_path ≠ c.cache_dir ++ [file_name]
           then fs.copy file_path (c.cache_dir ++ [file_name])
           else .ok fs : Except String FS) with
    | .error e => .error ("Failed to copy file to cache: " ++ e)
    | .ok fs1 =>
      match TemplateCache.save_metadata
          ⟨c.cache_dir,
           ⟨mapInsert template_id
              ⟨template_id, version, now, c.cache_dir ++ [file_name], fs.fileSize file_path⟩
              c.metadata.templates⟩⟩ fs1 with
      | .error e => .error e
      | .ok fs2 =>
        .ok (⟨c.cache_dir,
              ⟨mapInsert template_id
                 ⟨template_id, version, now, c.cache_dir ++ [file_name], fs.fileSize file_path⟩
                 c.metadata.templates⟩⟩, fs2)

/-- `list_cached`: snapshot of all entries. -/
def TemplateCache.list_cached (c : TemplateCache) : List CachedTemplate :=
  c.metadata.templates.map (·.2)

/-! ## Lemmas about the cache -/

theorem lookup_mapInsert_self (k : String) (v : CachedTemplate)
    (l : List (String × CachedTemplate)) :
    (mapInsert k v l).lookup k = some v := by
  simp [mapInsert, List.lookup]

theorem save_metadata_ok_inv (c : TemplateCache) (fs fs' : FS)
    (h : c.save_metadata fs = .ok fs') :
    fs'.files (c.cache_dir ++ ["metadata.json"]) = some (.meta c.metadata)
    ∧ fs'.dirs = fs.dirs ∧ fs'.failRead = fs.failRead := by
  unfold TemplateCache.save_metadata FS.write at h
  cases hfw : fs.failWrite (c.cache_dir ++ ["metadata.json"]) with
  | some e => rw [hfw] at h; exact Except.noConfusion h
  | none =>
    rw [hfw] at h
    injection h with h1
    subst h1
    exact ⟨by simp, rfl, rfl⟩

theorem copy_ok_inv (fs : FS) (src dst : PathBuf) (fs' : FS)
    (h : fs.copy src dst = .ok fs') :
    fs'.dirs = fs.dirs ∧ fs'.failRead = fs.failRead := by
  unfold FS.copy at h
  cases hfc : fs.failCopy src dst with
  | some e => rw [hfc] at h; exact Except.noConfusion h
  | none =>
    rw [hfc] at h
    cases hsrc : fs.files src with
    | none => rw [hsrc] at h; exact Except.noConfusion h
    | some d =>
      rw [hsrc] at h
      injection h with h1
      subst h1
      exact ⟨rfl, rfl⟩

/-- A successful `store` inserts the entry (path = cache dir + original file
name, size read from the source) and writes the new map to `metadata.json`;
directories and the read-failure oracle are untouched. -/
theorem store_ok_inv (c : TemplateCache) (fs : FS) (id ver : String) (p : PathBuf)
    (now : Int) (c' : TemplateCache) (fs' : FS)
    (h : c.store fs id ver p now = .ok (c', fs')) :
    ∃ fn, p.getLast? = some fn
      ∧ c' = ⟨c.cache_dir,
          ⟨mapInsert id ⟨id, ver, now, c.cache_dir ++ [fn], fs.fileSize p⟩
             c.metadata.templates⟩⟩
      ∧ fs'.files (c.cache_dir ++ ["metadata.json"]) = some (.meta c'.metadata)
      ∧ fs'.dirs = fs.dirs
      ∧ fs'.failRead = fs.failRead := by
  unfold TemplateCache.store at h
  split at h
  · exact Except.noConfusion h
  · rename_i fn hfn
    split at h
    · exact Except.noConfusion h
    · rename_i fs1 hcopy
      split at h
      · exact Except.noConfusion h
      · rename_i fs2 hsv
        injection h with h1
        injection h1 with hc' hfs'
        subst hc'
        subst hfs'
        have hfs1 : fs1.dirs = fs.dirs ∧ fs1.failRead = fs.failRead := by
          by_cases hif : p ≠ c.cache_dir ++ [fn]
          · rw [if_pos hif] at hcopy
            exact copy_ok_inv fs p (c.cache_dir ++ [fn]) fs1 hcopy
          · rw [if_neg hif] at hcopy
            injection hcopy with h2
            subst h2
            exact ⟨rfl, rfl⟩
        obtain ⟨hm, hd2, hr2⟩ := save_metadata_ok_inv _ fs1 fs2 hsv
        exact ⟨fn, hfn, rfl, hm, hd2.trans hfs1.1, hr2.trans hfs1.2⟩

/-- A successful `TemplateCache::new(a)` yields `cache_dir = a/template_cache`. -/
theorem new_ok_cache_dir (a : PathBuf) (fs : FS) (c : TemplateCache) (fs1 : FS)
    (h : TemplateCache.new a fs = .ok (c, fs1)) :
    c.cache_dir = a ++ ["template_cache"] := by
  unfold TemplateCache.new at h
  split at h
  · exact Except.noConfusion h
  · split at h
    · split at h
      · exact Except.noConfusion h
      · injection h with h1
        injection h1 with hc _
        rw [← hc]
    · injection h with h1
      injection h1 with hc _
      rw [← hc]

/-- If `metadata.json` holds (the serialization of) metadata `m`, a successful
`TemplateCache::new(a)` returns exactly `⟨a/template_cache, m⟩`. -/
theorem new_ok_meta (a : PathBuf) (fs : FS) (c : TemplateCache) (fs1 : FS)
    (m : CacheMetadata)
    (hmeta : fs.files (a ++ ["template_cache"] ++ ["metadata.json"]) = some (.meta m))
    (h : TemplateCache.new a fs = .ok (c, fs1)) :
    c = ⟨a ++ ["template_cache"], m⟩ := by
  unfold TemplateCache.new at h
  split at h
  · exact Except.noConfusion h
  · rename_i fs2 hstep
    have hff : fs2.files = fs.files ∧ fs2.failRead = fs.failRead := by
      by_cases hex : fs.existsPath (a ++ ["template_cache"])
      · rw [if_pos hex] at hstep
        injection hstep with h2
        subst h2
        exact ⟨rfl, rfl⟩
      · rw [if_neg hex] at hstep
        cases hcd : fs.create_dir_all (a ++ ["template_cache"]) with
        | error e => rw [hcd] at hstep; exact Except.noConfusion hstep
        | ok fs3 =>
          rw [hcd] at hstep
          injection hstep with h2
          subst h2
          unfold FS.create_dir_all at hcd
          cases hfc : fs.failCreateDir (a ++ ["template_cache"]) with
          | some e => rw [hfc] at hcd; exact Except.noConfusion hcd
          | none =>
            rw [hfc] at hcd
            injection hcd with h3
            subst h3
            exact ⟨rfl, rfl⟩
    have hex2 : fs2.existsPath (a ++ ["template_cache"] ++ ["metadata.json"]) = true := by
      rw [FS.existsPath, hff.1, hmeta]
      rfl
    rw [if_pos hex2] at h
    cases hrd : fs2.read_to_string (a ++ ["template_cache"] ++ ["metadata.json"]) with
    | error e => rw [hrd] at h; exact Except.noConfusion h
    | ok d =>
      rw [hrd] at h
      have hd : d = .meta m := by
        unfold FS.read_to_string at hrd
        cases hfr : fs2.failRead (a ++ ["template_cache"] ++ ["metadata.json"]) with
        | some e => rw [hfr] at hrd; exact Except.noConfusion hrd
        | none =>
          rw [hfr] at hrd
          rw [show fs2.files (a ++ ["template_cache"] ++ ["metadata.json"])
                = some (.meta m) from hff.1 ▸ hmeta] at hrd
          injection hrd with h4
          exact h4.symm
      subst hd
      injection h with h1
      injection h1 with hc _
      exact hc.symm

/-! ## C4: corrupt vs unreadable metadata at construction -/

/-- C4 (amended): constructing a `TemplateCache` over a base directory whose
`metadata.json` exists, is readable, but is corrupt (fails to parse as
metadata) succeeds and silently resets the metadata map to empty.  A
`metadata.json` that exists but cannot be read, however, fails construction
(see the counterexample). -/
theorem C4_corrupt_metadata_resets (a : PathBuf) (fs : FS) (s : String)
    (hdir : fs.existsPath (a ++ ["template_cache"]) = true)
    (hread : fs.failRead (a ++ ["template_cache"] ++ ["metadata.json"]) = none)
    (hfile : fs.files (a ++ ["template_cache"] ++ ["metadata.json"]) = some (.text s)) :
    TemplateCache.new a fs = .ok (⟨a ++ ["template_cache"], ⟨[]⟩⟩, fs) := by
  have hex2 : fs.existsPath (a ++ ["template_cache"] ++ ["metadata.json"]) = true := by
    rw [FS.existsPath, hfile]
    rfl
  unfold TemplateCache.new
  simp only [hdir, hex2, eq_self_iff_true, if_true, FS.read_to_string, hread, hfile,
    parseMetadata, Option.getD_none]

def w4fs : FS :=
  { fsEmpty with
    files := fun p => if p = ["base", "template_cache", "metadata.json"]
                      then some (.text "not json") else none,
    dirs := fun p => decide (p = ["base", "template_cache"]) }

theorem C4_corrupt_metadata_resets_witness :
    TemplateCache.new ["base"] w4fs
      = .ok (⟨["base"] ++ ["template_cache"], ⟨[]⟩⟩, w4fs) :=
  C4_corrupt_metadata_resets ["base"] w4fs "not json" rfl rfl rfl

def c4fs : FS :=
  { fsEmpty with
    files := fun p => if p = ["base", "template_cache", "metadata.json"]
                      then some (.text "x") else none,
    dirs := fun p => decide (p = ["base", "template_cache"]),
    failRead := fun p => if p = ["base", "template_cache", "metadata.json"]
                         then some "io" else none }

/-- C4 counterexample: `metadata.json` exists but reading it fails with OS
error "io"; the claim says construction still succeeds with an empty map, but
`TemplateCache::new` propagates the read error (the `?` on `read_to_string`)
and construction fails. -/
theorem C4_counterexample :
    TemplateCache.new ["base"] c4fs = .error ("Failed to read metadata: " ++ "io") := rfl

/-! ## C6: cache version isolation -/

/-- C6: after `store("t","v1",f1)` then `store("t","v2",f2)` (both
succeeding), `get("t","v1")` is `None` and `get("t","v2")` is the cached path
derived from `f2` (cache dir + f2's file name). -/
theorem C6_version_isolation (c c1 c2 : TemplateCache) (fs fs1 fs2 : FS)
    (f1 f2 : PathBuf) (t1 t2 : Int)
    (h1 : c.store fs "t" "v1" f1 t1 = .ok (c1, fs1))
    (h2 : c1.store fs1 "t" "v2" f2 t2 = .ok (c2, fs2)) :
    c2.get "t" "v1" = none
    ∧ ∃ fn, f2.getLast? = some fn ∧ c2.get "t" "v2" = some (c1.cache_dir ++ [fn]) := by
  obtain ⟨fn, hfn, hc2, -, -, -⟩ := store_ok_inv c1 fs1 "t" "v2" f2 t2 c2 fs2 h2
  subst hc2
  refine ⟨?_, fn, hfn, ?_⟩
  · simp [TemplateCache.get, lookup_mapInsert_self]
  · simp [TemplateCache.get, lookup_mapInsert_self]

def wFS0 : FS :=
  { files := fun p => if p = ["src", "a.zip"] then some (.bin 3)
             else if p = ["src", "b.zip"] then some (.bin 5) else none,
    dirs := fun p => decide (p = ["base", "template_cache"]),
    failCreateDir := fun _ => none, failRead := fun _ => none,
    failWrite := fun _ => none, failCopy := fun _ _ => none }

def wPair0 : TemplateCache × FS := (⟨[], ⟨[]⟩⟩, fsEmpty)

def w6c0 : TemplateCache := ⟨["base", "template_cache"], ⟨[]⟩⟩
def w6c1 : TemplateCache :=
  ((w6c0.store wFS0 "t" "v1" ["src", "a.zip"] 0).toOption.getD wPair0).1
def w6fs1 : FS :=
  ((w6c0.store wFS0 "t" "v1" ["src", "a.zip"] 0).toOption.getD wPair0).2
def w6c2 : TemplateCache :=
  ((w6c1.store w6fs1 "t" "v2" ["src", "b.zip"] 1).toOption.getD wPair0).1
def w6fs2 : FS :=
  ((w6c1.store w6fs1 "t" "v2" ["src", "b.zip"] 1).toOption.getD wPair0).2

theorem C6_version_isolation_witness :
    w6c2.get "t" "v1" = none
    ∧ ∃ fn, (["src", "b.zip"] : PathBuf).getLast? = some fn
        ∧ w6c2.get "t" "v2" = some (w6c1.cache_dir ++ [fn]) :=
  C6_version_isolation w6c0 w6c1 w6c2 wFS0 w6fs1 w6fs2 ["src", "a.zip"] ["src", "b.zip"]
    0 1 rfl rfl

/-! ## C7: cache persistence round-trip -/

/-- C7: if a cache constructed over base directory `a` successfully stores an
entry for `(id, ver)`, then a fresh `TemplateCache` constructed over the same
base directory observes that entry via `get(id, ver)` (round-trip through
`metadata.json`). -/
theorem C7_persistence_round_trip (a : PathBuf) (fs fs1 fs2 fs3 : FS)
    (c c2 c3 : TemplateCache) (id ver : String) (p : PathBuf) (now : Int)
    (h0 : TemplateCache.new a fs = .ok (c, fs1))
    (h1 : c.store fs1 id ver p now = .ok (c2, fs2))
    (h2 : TemplateCache.new a fs2 = .ok (c3, fs3)) :
    ∃ fn, p.getLast? = some fn
      ∧ c3.get id ver = some (a ++ ["template_cache"] ++ [fn]) := by
  have hcd := new_ok_cache_dir a fs c fs1 h0
  obtain ⟨fn, hfn, hc2, hmeta, -, -⟩ := store_ok_inv c fs1 id ver p now c2 fs2 h1
  rw [hcd] at hmeta hc2
  have hc3 := new_ok_meta a fs2 c3 fs3 c2.metadata hmeta h2
  refine ⟨fn, hfn, ?_⟩
  rw [hc3, hc2]
  simp [TemplateCache.get, lookup_mapInsert_self]

def w7c : TemplateCache :=
  ((TemplateCache.new ["base"] wFS0).toOption.getD wPair0).1
def w7fs1 : FS :=
  ((TemplateCache.new ["base"] wFS0).toOption.getD wPair0).2
def w7c2 : TemplateCache :=
  ((w7c.store w7fs1 "t" "v1" ["src", "a.zip"] 0).toOption.getD wPair0).1
def w7fs2 : FS :=
  ((w7c.store w7fs1 "t" "v1" ["src", "a.zip"] 0).toOption.getD wPair0).2
def w7c3 : TemplateCache :=
  ((TemplateCache.new ["base"] w7fs2).toOption.getD wPair0).1
def w7fs3 : FS :=
  ((TemplateCache.new ["base"] w7fs2).toOption.getD wPair0).2

theorem C7_persistence_round_trip_witness :
    ∃ fn, (["src", "a.zip"] : PathBuf).getLast? = some fn
      ∧ w7c3.get "t" "v1" = some (["base"] ++ ["template_cache"] ++ [fn]) :=
  C7_persistence_round_trip ["base"] wFS0 w7fs1 w7fs2 w7fs3 w7c w7c2 w7c3 "t" "v1"
    ["src", "a.zip"] 0 rfl rfl rfl

/-! ## Inline template file contents (`templates/core.rs`) -/

def reactVitePackageJson : String :=
  "\x7b\n  \"name\": \"vite-react-app\",\n  \"private\": true,\n  \"version\": \"0.0.0\",\n  \"type\": \"module\",\n  \"scripts\": \x7b\n    \"dev\": \"vite\",\n    \"build\": \"tsc && vite build\",\n    \"lint\": \"eslint . --ext ts,tsx --report-unused-disable-directives --max-warnings 0\",\n    \"preview\": \"vite preview\"\n  \x7d,\n  \"dependencies\": \x7b\n    \"react\": \"^18.2.0\",\n    \"react-dom\": \"^18.2.0\",\n    \"lucide-react\": \"^0.294.0\"\n  \x7d,\n  \"devDependencies\": \x7b\n    \"@types/react\": \"^18.2.37\",\n    \"@types/react-dom\": \"^18.2.15\",\n    \"@typescript-eslint/eslint-plugin\": \"^6.10.0\",\n    \"@typescript-eslint/parser\": \"^6.10.0\",\n    \"@vitejs/plugin-react\": \"^4.2.0\",\n    \"autoprefixer\": \"^10.4.16\",\n    \"postcss\": \"^8.4.31\",\n    \"tailwindcss\": \"^3.3.5\",\n    \"typescript\": \"^5.2.2\",\n    \"vite\": \"^5.0.0\"\n  \x7d\n\x7d"

def reactViteTsconfig : String :=
  "\x7b\n  \"compilerOptions\": \x7b\n    \"target\": \"ES2020\",\n    \"useDefineForClassFields\": true,\n    \"lib\": [\"ES2020\", \"DOM\", \"DOM.Iterable\"],\n    \"module\": \"ESNext\",\n    \"skipLibCheck\": true,\n    \"moduleResolution\": \"bundler\",\n    \"allowImportingTsExtensions\": true,\n    \"resolveJsonModule\": true,\n    \"isolatedModules\": true,\n    \"noEmit\": true,\n    \"jsx\": \"react-jsx\",\n    \"strict\": true,\n    \"noUnusedLocals\": true,\n    \"noUnusedParameters\": true,\n    \"noFallthroughCasesInSwitch\": true\n  \x7d,\n  \"include\": [\"src\"],\n  \"references\": [\x7b \"path\": \"./tsconfig.node.json\" \x7d]\n\x7d"

def reactViteTsconfigNode : String :=
  "\x7b\n  \"compilerOptions\": \x7b\n    \"composite\": true,\n    \"skipLibCheck\": true,\n    \"module\": \"ESNext\",\n    \"moduleResolution\": \"bundler\",\n    \"allowSyntheticDefaultImports\": true\n  \x7d,\n  \"include\": [\"vite.config.ts\"]\n\x7d"

def reactViteViteConfig : String :=
  "import \x7b defineConfig \x7d from 'vite'\nimport react from '@vitejs/plugin-react'\n\n// https://vitejs.dev/config/\nexport default defineConfig(\x7b\n  plugins: [react()],\n\x7d)\n"

def reactViteIndexHtml : String :=
  "<!doctype html>\n<html lang=\"en\">\n  <head>\n    <meta charset=\"UTF-8\" />\n    <link rel=\"icon\" type=\"image/svg+xml\" href=\"/vite.svg\" />\n    <meta name=\"viewport\" content=\"width=device-width, initial-scale=1.0\" />\n    <title>Vite + React + TS</title>\n  </head>\n  <body>\n    <div id=\"root\"></div>\n    <script type=\"module\" src=\"/src/main.tsx\"></script>\n  </body>\n</html>\n"

def reactViteMainTsx : String :=
  "import React from 'react'\nimport ReactDOM from 'react-dom/client'\nimport App from './App.tsx'\nimport './index.css'\n\nReactDOM.createRoot(document.getElementById('root')!).render(\n  <React.StrictMode>\n    <App />\n  </React.StrictMode>,\n)\n"

def reactViteAppTsx : String :=
  "import \x7b useState \x7d from 'react'\nimport \x7b RocketIcon \x7d from 'lucide-react'\n\nfunction App() \x7b\n  const [count, setCount] = useState(0)\n\n  return (\n    <div className=\"min-h-screen bg-gray-900 text-white flex flex-col items-center justify-center p-4\">\n      <div className=\"text-center space-y-6\">\n        <div className=\"flex justify-center\">\n          <RocketIcon className=\"w-20 h-20 text-blue-500 animate-bounce\" />\n        </div>\n        <h1 className=\"text-4xl font-bold\">Vite + React</h1>\n        <div className=\"p-6 bg-gray-800 rounded-lg shadow-xl border border-gray-700\">\n          <button \n            onClick=\x7b() => setCount((count) => count + 1)\x7d\n            className=\"px-4 py-2 bg-blue-600 hover:bg-blue-700 rounded transition-colors font-medium\"\n          >\n            count is \x7bcount\x7d\n          </button>\n          <p className=\"mt-4 text-gray-400\">\n            Edit <code>src/App.tsx</code> and save to test HMR\n          </p>\n        </div>\n      </div>\n    </div>\n  )\n\x7d\n\nexport default App\n"

def nodeExpressPackageJson : String :=
  "\x7b\n  \"name\": \"express-api\",\n  \"version\": \"1.0.0\",\n  \"description\": \"Express.js API with TypeScript\",\n  \"main\": \"dist/index.js\",\n  \"scripts\": \x7b\n    \"start\": \"node dist/index.js\",\n    \"dev\": \"nodemon src/index.ts\",\n    \"build\": \"tsc\"\n  \x7d,\n  \"keywords\": [],\n  \"author\": \"\",\n  \"license\": \"ISC\",\n  \"dependencies\": \x7b\n    \"express\": \"^4.18.2\",\n    \"cors\": \"^2.8.5\",\n    \"dotenv\": \"^16.3.1\",\n    \"helmet\": \"^7.1.0\"\n  \x7d,\n  \"devDependencies\": \x7b\n    \"@types/cors\": \"^2.8.17\",\n    \"@types/express\": \"^4.17.21\",\n    \"@types/node\": \"^20.10.0\",\n    \"nodemon\": \"^3.0.1\",\n    \"ts-node\": \"^10.9.1\",\n    \"typescript\": \"^5.3.2\"\n  \x7d\n\x7d"

def nodeExpressTsconfig : String :=
  "\x7b\n  \"compilerOptions\": \x7b\n    \"target\": \"es2016\",\n    \"module\": \"commonjs\",\n    \"outDir\": \"./dist\",\n    \"rootDir\": \"./src\",\n    \"strict\": true,\n    \"esModuleInterop\": true,\n    \"skipLibCheck\": true,\n    \"forceConsistentCasingInFileNames\": true\n  \x7d\n\x7d"

def nodeExpressIndexTs : String :=
  "import express, \x7b Request, Response \x7d from 'express';\nimport cors from 'cors';\nimport helmet from 'helmet';\n\nconst app = express();\nconst port = process.env.PORT || 3000;\n\n// Middleware\napp.use(helmet());\napp.use(cors());\napp.use(express.json());\n\n// Routes\napp.get('/', (req: Request, res: Response) => \x7b\n  res.json(\x7b \n    message: 'Welcome to your Express + TypeScript API!',\n    timestamp: new Date().toISOString()\n  \x7d);\n\x7d);\n\napp.get('/health', (req: Request, res: Response) => \x7b\n  res.json(\x7b status: 'ok' \x7d);\n\x7d);\n\n// Start server\napp.listen(port, () => \x7b\n  console.log(`Server running at http://localhost:$\x7bport\x7d`);\n\x7d);\n"

def fastapiMainPy : String :=
  "from fastapi import FastAPI\nfrom pydantic import BaseModel\n\napp = FastAPI(\n    title=\"FastAPI App\",\n    description=\"A simple FastAPI application\",\n    version=\"1.0.0\"\n)\n\nclass Item(BaseModel):\n    name: str\n    price: float\n    is_offer: bool = None\n\n@app.get(\"/\")\nasync def root():\n    return \x7b\"message\": \"Welcome to your FastAPI application!\"\x7d\n\n@app.get(\"/items/\x7bitem_id\x7d\")\nasync def read_item(item_id: int, q: str = None):\n    return \x7b\"item_id\": item_id, \"q\": q\x7d\n\n@app.put(\"/items/\x7bitem_id\x7d\")\nasync def update_item(item_id: int, item: Item):\n    return \x7b\"item_name\": item.name, \"item_id\": item_id\x7d\n"

def tailwindIndexCss : String := "@tailwind base;\n@tailwind components;\n@tailwind utilities;\n"

def viteEnvDts : String := "/// <reference types=\"vite/client\" />"

def reactViteGitignore : String := "node_modules\ndist\n.env\n.DS_Store\n"

def nodeExpressGitignore : String := "node_modules\ndist\n.env\n"

def nodeExpressReadme (project_name : String) : String :=
  "# " ++ project_name ++ "\n\nExpress.js API with TypeScript.\n\n## Getting Started\n\n1. Install dependencies:\n   ```bash\n   npm install\n   ```\n\n2. Run development server:\n   ```bash\n   npm run dev\n   ```\n"

def fastapiRequirements : String := "fastapi>=0.104.0\nuvicorn[standard]>=0.24.0\npydantic>=2.5.0\n"

def fastapiGitignore : String := "__pycache__/\nvenv/\n.env\n*.pyc\n"

def fastapiReadme (project_name : String) : String :=
  "# " ++ project_name ++ "\n\nFastAPI project.\n\n## Getting Started\n\n1. Create virtual environment:\n   ```bash\n   python -m venv venv\n   ```\n\n2. Activate virtual environment:\n   - Windows: `venv\\Scripts\\activate`\n   - Unix: `source venv/bin/activate`\n\n3. Install dependencies:\n   ```bash\n   pip install -r requirements.txt\n   ```\n\n4. Run server:\n   ```bash\n   uvicorn app.main:app --reload\n   ```\n"

/-! ## The scaffold engine state monad -/

/-- An external command: program, arguments, optional working directory. -/
structure CmdSpec where
  program : String
  args : List String
  cwd : Option PathBuf
deriving DecidableEq

/-- Captured result of a finished subprocess. -/
structure CmdOutput where
  success : Bool
  stdout : String
  stderr : String
deriving DecidableEq

/-- The observable state threaded through one invocation: the filesystem, the
progress events emitted so far (in order), and the commands spawned so far. -/
structure World where
  fs : FS
  events : List TemplateProgress
  cmds : List CmdSpec

/-- The ambient environment: the subprocess oracle (indexed by how many
commands ran before, so repeated attempts may differ and may change the
filesystem), the app data directory, the URL hash (sha256 + base64, an
external computation), and the current unix time. -/
structure Env where
  runCmd : Nat → CmdSpec → FS → Except String CmdOutput × FS
  appDataDir : PathBuf
  urlHash : String → String
  now : Int

/-- State-and-error monad of one scaffold invocation; an error result carries
the world as it was when the error was returned. -/
def ScafM (α : Type) : Type := World → Except String α × World

instance : Monad ScafM where
  pure a := fun w => (.ok a, w)
  bind x f := fun w =>
    match x w with
    | (.ok a, w1) => f a w1
    | (.error e, w1) => (.error e, w1)

/-- Return `Err(e)` from the command (Rust `return Err(e)` / `?`). -/
def ScafM.throwE {α : Type} (e : String) : ScafM α := fun w => (.error e, w)

/-- `app.emit("template-progress", p)` (the emission result is ignored by
every call site: `let _ =` or `.ok()`). -/
def ScafM.emit (p : TemplateProgress) : ScafM Unit :=
  fun w => (.ok (), { w with events := w.events ++ [p] })

/-- Spawn a command and wait (`Command::... .output()`); records the command,
lets the oracle update the filesystem, returns the `io::Result<Output>`. -/
def ScafM.runCmd (env : Env) (c : CmdSpec) : ScafM (Except String CmdOutput) :=
  fun w =>
    (.ok (env.runCmd w.cmds.length c w.fs).1,
     { w with fs := (env.runCmd w.cmds.length c w.fs).2, cmds := w.cmds ++ [c] })

/-- Read the current filesystem. -/
def ScafM.getFS : ScafM FS := fun w => (.ok w.fs, w)

/-- Replace the filesystem. -/
def ScafM.fsSet (fs : FS) : ScafM Unit := fun w => (.ok (), { w with fs := fs })

/-- A fallible filesystem step whose error is mapped through
`.map_err(|e| format!("<pfx>{}", e))?`. -/
def ScafM.fsStep (f : FS → Except String FS) (pfx : String) : ScafM Unit :=
  fun w =>
    match f w.fs with
    | .ok fs1 => (.ok (), { w with fs := fs1 })
    | .error e => (.error (pfx ++ e), w)

def ScafM.create_dir_all (p : PathBuf) (pfx : String) : ScafM Unit :=
  ScafM.fsStep (fun fs => fs.create_dir_all p) pfx

def ScafM.writeText (p : PathBuf) (s : String) (pfx : String) : ScafM Unit :=
  ScafM.fsStep (fun fs => fs.write p (.text s)) pfx

def ScafM.copyFile (src dst : PathBuf) (pfx : String) : ScafM Unit :=
  ScafM.fsStep (fun fs => fs.copy src dst) pfx

/-- `let _ = Command::new(..).output();` — spawn, ignore everything. -/
def ScafM.runIgnored (env : Env) (c : CmdSpec) : ScafM Unit := do
  let _ ← ScafM.runCmd env c
  pure ()

/-- `let output = Command::...output().map_err(..)?; if !output.status.success()
{ return Err(stderr) }`. -/
def ScafM.runToolStrict (env : Env) (c : CmdSpec) (pfx : String) : ScafM Unit := do
  match ← ScafM.runCmd env c with
  | .error e => ScafM.throwE (pfx ++ e)
  | .ok out => if out.success then pure () else ScafM.throwE out.stderr

/-- `Command::...output().map_err(..)?;` — only spawn failure is an error; the
exit status is not inspected. -/
def ScafM.runToolSpawnOnly (env : Env) (c : CmdSpec) (pfx : String) : ScafM CmdOutput := do
  match ← ScafM.runCmd env c with
  | .error e => ScafM.throwE (pfx ++ e)
  | .ok out => pure out

/-- `retry_with_backoff` as used by `download_springboot`: the closure has
side effects (it spawns a command per attempt), so the loop is replayed in
`ScafM`; sleeps are unobservable.  Structure mirrors `retryLoop`. -/
def retryLoopM (op : ScafM (Except String Unit)) : Nat → ScafM (Except String Unit)
  | 0 => op
  | remaining + 1 => do
    match ← op with
    | .ok r => pure (.ok r)
    | .error _ => retryLoopM op remaining

def retry_with_backoffM (op : ScafM (Except String Unit)) (config : RetryConfig) :
    ScafM (Except String Unit) :=
  retryLoopM op config.max_retries

/-! ## create_project_from_template (`templates/core.rs`, Windows cfg) -/

/-- Rendering of a path for display/scripts (`to_string_lossy`, `to_str`). -/
def pathToString (p : PathBuf) : String := String.intercalate "/" p

/-- The Spring Initializr URL built from the project name. -/
def springbootUrl (project_name : String) : String :=
  "https://start.spring.io/starter.zip?type=maven-project&language=java&baseDir="
  ++ project_name ++ "&groupId=com.example&artifactId=" ++ project_name
  ++ "&name=" ++ project_name ++ "&description=Demo+project&packageName=com.example."
  ++ project_name ++ "&packaging=jar&javaVersion=17&dependencies=web,data-jpa"

/-- `Invoke-WebRequest -Uri '<url>' -OutFile '<zip>'`. -/
def downloadScript (url : String) (zip_path : PathBuf) : String :=
  "Invoke-WebRequest -Uri '" ++ url ++ "' -OutFile '" ++ pathToString zip_path ++ "'"

/-- `Expand-Archive -Path '<zip>' -DestinationPath '.' -Force`. -/
def unzipScript (zip_file : String) : String :=
  "Expand-Archive -Path '" ++ zip_file ++ "' -DestinationPath '.' -Force"

/-- `Remove-Item '<zip>'`. -/
def removeScript (zip_file : String) : String :=
  "Remove-Item '" ++ zip_file ++ "'"

/-- The string a successful `read_to_string` produces (only `.text` file
contents are observed as strings by the engine). -/
def FileData.asString : FileData → String
  | .text s => s
  | .meta _ => ""
  | .bin _ => ""

/-- The `"react-vite"` arm: emit `downloading 0.1`, create the directory,
write the fixed file set, emit `installing 0.8`, best-effort `npm install`. -/
def branchReactVite (env : Env) (full_path : PathBuf) : ScafM Unit := do
  ScafM.emit (TemplateProgress.downloading (.fin q0_1) "Creating project structure...")
  ScafM.create_dir_all full_path "Failed to create directory: "
  ScafM.writeText (full_path ++ ["package.json"]) reactVitePackageJson
    "Failed to create package.json: "
  ScafM.writeText (full_path ++ ["tsconfig.json"]) reactViteTsconfig
    "Failed to create tsconfig.json: "
  ScafM.writeText (full_path ++ ["tsconfig.node.json"]) reactViteTsconfigNode
    "Failed to create tsconfig.node.json: "
  ScafM.writeText (full_path ++ ["vite.config.ts"]) reactViteViteConfig
    "Failed to create vite.config.ts: "
  ScafM.writeText (full_path ++ ["index.html"]) reactViteIndexHtml
    "Failed to create index.html: "
  ScafM.create_dir_all (full_path ++ ["src"]) "Failed to create src directory: "
  ScafM.writeText (full_path ++ ["src", "main.tsx"]) reactViteMainTsx
    "Failed to create src/main.tsx: "
  ScafM.writeText (full_path ++ ["src", "App.tsx"]) reactViteAppTsx
    "Failed to create src/App.tsx: "
  ScafM.writeText (full_path ++ ["src", "index.css"]) tailwindIndexCss
    "Failed to create src/index.css: "
  ScafM.writeText (full_path ++ ["src", "vite-env.d.ts"]) viteEnvDts
    "Failed to create src/vite-env.d.ts: "
  ScafM.writeText (full_path ++ [".gitignore"]) reactViteGitignore
    "Failed to create .gitignore: "
  ScafM.emit (TemplateProgress.installing (.fin q0_8) "Installing dependencies...")
  ScafM.runIgnored env ⟨"cmd", ["/C", "npm", "install"], some full_path⟩

/-- The `"react-nextjs"` arm: shell out to `create-next-app`; non-zero exit
returns the stderr. -/
def branchReactNextjs (env : Env) (project_name location : String) : ScafM Unit := do
  ScafM.emit (TemplateProgress.downloading (.fin q0_2) "Running create-next-app...")
  ScafM.runToolStrict env
    ⟨"cmd", ["/C", "npx", "create-next-app@latest", project_name, "--typescript",
       "--tailwind", "--app", "--no-git"], some [location]⟩
    "Failed to create Next.js project: "

/-- The `"vue-vite"` arm. -/
def branchVueVite (env : Env) (project_name location : String) : ScafM Unit := do
  ScafM.emit (TemplateProgress.downloading (.fin q0_2) "Creating Vue project...")
  ScafM.runToolStrict env
    ⟨"cmd", ["/C", "npm", "create", "vite@latest", project_name, "--", "--template",
       "vue-ts"], some [location]⟩
    "Failed to create Vue project: "

/-- The `"angular"` arm. -/
def branchAngular (env : Env) (project_name location : String) : ScafM Unit := do
  ScafM.emit (TemplateProgress.downloading (.fin q0_2) "Creating Angular project...")
  ScafM.runToolStrict env
    ⟨"cmd", ["/C", "npx", "@angular/cli@latest", "new", project_name, "--skip-git"],
     some [location]⟩
    "Failed to create Angular project: "

/-- The `"node-express"` arm: like react-vite, with its own file set. -/
def branchNodeExpress (env : Env) (project_name : String) (full_path : PathBuf) :
    ScafM Unit := do
  ScafM.emit (TemplateProgress.downloading (.fin q0_1) "Creating project structure...")
  ScafM.create_dir_all full_path "Failed to create directory: "
  ScafM.writeText (full_path ++ ["package.json"]) nodeExpressPackageJson
    "Failed to create package.json: "
  ScafM.writeText (full_path ++ ["tsconfig.json"]) nodeExpressTsconfig
    "Failed to create tsconfig.json: "
  ScafM.writeText (full_path ++ [".gitignore"]) nodeExpressGitignore
    "Failed to create .gitignore: "
  ScafM.writeText (full_path ++ ["README.md"]) (nodeExpressReadme project_name)
    "Failed to create README.md: "
  ScafM.create_dir_all (full_path ++ ["src"]) "Failed to create src directory: "
  ScafM.writeText (full_path ++ ["src", "index.ts"]) nodeExpressIndexTs
    "Failed to create src/index.ts: "
  ScafM.emit (TemplateProgress.installing (.fin q0_8) "Installing dependencies...")
  ScafM.runIgnored env ⟨"cmd", ["/C", "npm", "install"], some full_path⟩

/-- The `"fastapi"` arm. -/
def branchFastapi (env : Env) (project_name : String) (full_path : PathBuf) :
    ScafM Unit := do
  ScafM.emit (TemplateProgress.downloading (.fin q0_1) "Creating project structure...")
  ScafM.create_dir_all full_path "Failed to create directory: "
  ScafM.writeText (full_path ++ ["requirements.txt"]) fastapiRequirements
    "Failed to create requirements.txt: "
  ScafM.writeText (full_path ++ [".gitignore"]) fastapiGitignore
    "Failed to create .gitignore: "
  ScafM.writeText (full_path ++ ["README.md"]) (fastapiReadme project_name)
    "Failed to create README.md: "
  ScafM.create_dir_all (full_path ++ ["app"]) "Failed to create app directory: "
  ScafM.writeText (full_path ++ ["app", "main.py"]) fastapiMainPy
    "Failed to create app/main.py: "
  ScafM.emit (TemplateProgress.installing (.fin q0_8) "Setting up virtual environment...")
  ScafM.runIgnored env ⟨"cmd", ["/C", "python", "-m", "venv", "venv"], some full_path⟩
  ScafM.runIgnored env ⟨"cmd", ["/C", "venv\\Scripts\\pip", "install", "-r",
    "requirements.txt"], some full_path⟩

/-- The `"django"` arm: two commands whose exit status is never inspected —
only a spawn failure is an error. -/
def branchDjango (env : Env) (project_name location : String) : ScafM Unit := do
  ScafM.emit (TemplateProgress.installing (.fin q0_2) "Installing Django...")
  let _ ← ScafM.runToolSpawnOnly env ⟨"cmd", ["/C", "pip", "install", "django"], none⟩
    "Failed to install Django: "
  ScafM.emit (TemplateProgress.downloading (.fin q0_5) "Creating Django project...")
  let _ ← ScafM.runToolSpawnOnly env
    ⟨"cmd", ["/C", "django-admin", "startproject", project_name], some [location]⟩
    "Failed to create Django project: "
  pure ()

/-- The `"rust-actix"` arm: `cargo new` (exit status not inspected), then read
`Cargo.toml`, append the actix dependency and write it back. -/
def branchRustActix (env : Env) (project_name location : String) (full_path : PathBuf) :
    ScafM Unit := do
  ScafM.emit (TemplateProgress.downloading (.fin q0_2) "Creating Cargo project...")
  let _ ← ScafM.runToolSpawnOnly env
    ⟨"cmd", ["/C", "cargo", "new", project_name], some [location]⟩
    "Failed to create Rust project: "
  let fs ← ScafM.getFS
  match fs.read_to_string (full_path ++ ["Cargo.toml"]) with
  | .error e => ScafM.throwE ("Failed to read Cargo.toml: " ++ e)
  | .ok d =>
    ScafM.writeText (full_path ++ ["Cargo.toml"])
      (d.asString ++ "\nactix-web = \"4.0\"\n")
      "Failed to write Cargo.toml: "

/-- The `"tauri-react"` arm. -/
def branchTauriReact (env : Env) (project_name location : String) : ScafM Unit := do
  ScafM.emit (TemplateProgress.downloading (.fin q0_2) "Creating Tauri project...")
  ScafM.runToolStrict env
    ⟨"cmd", ["/C", "npm", "create", "tauri-app@latest", project_name, "--",
       "--template", "react-ts"], some [location]⟩
    "Failed to create Tauri project: "

/-- One download attempt: powershell `Invoke-WebRequest`; a spawn failure or a
non-zero exit is a (retryable) error. -/
def springbootAttempt (env : Env) (url : String) (zip_path : PathBuf) :
    ScafM (Except String Unit) := do
  match ← ScafM.runCmd env
      ⟨"powershell", ["-NoProfile", "-Command", downloadScript url zip_path], none⟩ with
  | .error e => pure (.error ("Failed to execute powershell: " ++ e))
  | .ok out =>
    if out.success then pure (.ok ())
    else pure (.error ("Download failed: " ++ out.stderr))

/-- `download_springboot` (Windows cfg): emit `downloading 0.2`, then the
retried download; on exhaustion the last error propagates (`?`) with no
Error progress event. -/
def download_springboot (env : Env) (url : String) (zip_path : PathBuf) : ScafM Unit := do
  ScafM.emit (TemplateProgress.downloading (.fin q0_2) "Downloading Spring Boot template...")
  match ← retry_with_backoffM (springbootAttempt env url zip_path) RetryConfig.default with
  | .error e => ScafM.throwE e
  | .ok _ => pure ()

/-- The cache/download phase of the `"springboot"` arm: compute the URL and
the hash-derived cache version, construct the cache (`.ok()` drops a
construction error, and the dropped partial filesystem effect — at most a
created cache directory nothing later reads — is not replayed), then either
copy a still-existing cached file into place (emitting the `downloading 1.0`
"Using cached template..." event) or download (with retry), storing a fresh
download best-effort when the lookup came back empty. -/
def springbootFetch (env : Env) (project_name location : String) : ScafM Unit := do
  let url := springbootUrl project_name
  let zip_path : PathBuf := [location, project_name ++ ".zip"]
  let cache_version := "v1-" ++ ((env.urlHash url).take 16)
  let fs0 ← ScafM.getFS
  let cacheInit := TemplateCache.new env.appDataDir fs0
  (match cacheInit with
   | .ok (_, fs1) => ScafM.fsSet fs1
   | .error _ => pure ())
  let cache : Option TemplateCache := cacheInit.toOption.map (·.1)
  let cached_file : Option PathBuf :=
    match cache with
    | some c => c.get "springboot" cache_version
    | none => none
  match cached_file with
  | some path => do
    let fsNow ← ScafM.getFS
    if fsNow.existsPath path then do
      ScafM.emit (TemplateProgress.downloading (.fin 1) "Using cached template...")
      ScafM.copyFile path zip_path "Failed to copy cached file: "
    else
      download_springboot env url zip_path
  | none => do
    download_springboot env url zip_path
    (match cache with
     | some c => do
       let fsNow ← ScafM.getFS
       match c.store fsNow "springboot" cache_version zip_path env.now with
       | .ok (_, fs2) => ScafM.fsSet fs2
       | .error _ => pure ()
     | none => pure ())

/-- The extraction + verification phase of the `"springboot"` arm (Windows
cfg): powershell `Expand-Archive` (non-zero exit emits an Error event and
fails), best-effort zip cleanup, then the postcondition check that the
expected directory exists (emitting a distinct Error event if not). -/
def springbootExtract (env : Env) (location zip_file : String) (full_path : PathBuf)
    (full_path_str : String) : ScafM Unit := do
  ScafM.emit (TemplateProgress.extracting (.fin q0_6) "Extracting files...")
  (do
    match ← ScafM.runCmd env
        ⟨"powershell", ["-NoProfile", "-Command", unzipScript zip_file], some [location]⟩ with
    | .error e => ScafM.throwE ("Failed to execute powershell unzip: " ++ e)
    | .ok out =>
      if out.success then pure ()
      else do
        ScafM.emit (TemplateProgress.error ("Extraction failed: " ++ out.stderr))
        ScafM.throwE ("Unzip failed: " ++ out.stderr))
  ScafM.runIgnored env
    ⟨"powershell", ["-NoProfile", "-Command", removeScript zip_file], some [location]⟩
  ScafM.emit (TemplateProgress.installing (.fin q0_9) "Verifying project structure...")
  let fsEnd ← ScafM.getFS
  if fsEnd.existsPath full_path then pure ()
  else do
    ScafM.emit (TemplateProgress.error "Project directory not found")
    ScafM.throwE ("Project directory was not created at expected path: " ++ full_path_str)

/-- The `"springboot"` arm (Windows cfg): emit its own Initializing event,
ensure the destination directory, fetch (cache or network), extract and
verify. -/
def branchSpringboot (env : Env) (project_name location : String)
    (full_path : PathBuf) (full_path_str : String) : ScafM Unit := do
  ScafM.emit (TemplateProgress.initializing "Creating Spring Boot project...")
  ScafM.create_dir_all [location] "Failed to create location directory: "
  springbootFetch env project_name location
  springbootExtract env location (project_name ++ ".zip") full_path full_path_str

/-- `create_project_from_template` (`templates/core.rs`, Windows cfg): emit
the initial event, dispatch on the template id (the Rust `match` on `&str` is
a comparison chain), then emit the terminal Complete event and return the
path. -/
def create_project_from_template (env : Env) (template_id project_name location : String) :
    ScafM String := do
  ScafM.emit (TemplateProgress.initializing "Preparing project...")
  let full_path : PathBuf := [location, project_name]
  let full_path_str := pathToString full_path
  (if template_id = "react-vite" then
    branchReactVite env full_path
  else if template_id = "react-nextjs" then
    branchReactNextjs env project_name location
  else if template_id = "vue-vite" then
    branchVueVite env project_name location
  else if template_id = "angular" then
    branchAngular env project_name location
  else if template_id = "node-express" then
    branchNodeExpress env project_name full_path
  else if template_id = "springboot" then
    branchSpringboot env project_name location full_path full_path_str
  else if template_id = "fastapi" then
    branchFastapi env project_name full_path
  else if template_id = "django" then
    branchDjango env project_name location
  else if template_id = "rust-actix" then
    branchRustActix env project_name location full_path
  else if template_id = "tauri-react" then
    branchTauriReact env project_name location
  else
    ScafM.throwE ("Unknown template: " ++ template_id))
  ScafM.emit (TemplateProgress.complete "Project created successfully!")
  pure full_path_str

/-- Run one invocation from a fresh event/command trace over filesystem `fs`. -/
def runCreate (env : Env) (template_id project_name location : String) (fs : FS) :
    Except String String × World :=
  create_project_from_template env template_id project_name location
    { fs := fs, events := [], cmds := [] }

/-! ## Event traces: signatures, counting, monotonicity -/

/-- The (stage, progress) signature of an event. -/
def esig (e : TemplateProgress) : ProgressStage × F32 := (e.stage, e.progress)

/-- Number of events of the given stage in a signature list. -/
def countSig (l : List (ProgressStage × F32)) (s : ProgressStage) : Nat :=
  (l.filter (fun x => x.1 == s)).length

/-- The progress values of the signature list are non-decreasing. -/
def monotoneSigsB : List (ProgressStage × F32) → Bool
  | [] => true
  | [_] => true
  | a :: b :: rest => F32.leb a.2 b.2 && monotoneSigsB (b :: rest)

/-- Keep everything except Error events and the cache-hit event (the only
Downloading event carrying progress 1.0). -/
def keepSig (s : ProgressStage × F32) : Bool :=
  !(s.1 == ProgressStage.Error) && !((s.1 == ProgressStage.Downloading) && (s.2 == F32.fin 1))

/-! ## Application lemmas for the monad operations -/

theorem ScafM.bind_app {α β : Type} (x : ScafM α) (f : α → ScafM β) (w : World) :
    (x >>= f) w
      = match x w with
        | (.ok a, w1) => f a w1
        | (.error e, w1) => (.error e, w1) := rfl

theorem ScafM.pure_app {α : Type} (a : α) (w : World) : (pure a : ScafM α) w = (.ok a, w) := rfl

theorem ScafM.emit_app (p : TemplateProgress) (w : World) :
    ScafM.emit p w = (.ok (), { w with events := w.events ++ [p] }) := rfl

theorem ScafM.throwE_app {α : Type} (e : String) (w : World) :
    (ScafM.throwE e : ScafM α) w = (.error e, w) := rfl

theorem ScafM.getFS_app (w : World) : ScafM.getFS w = (.ok w.fs, w) := rfl

theorem ScafM.fsSet_app (fs : FS) (w : World) :
    ScafM.fsSet fs w = (.ok (), { w with fs := fs }) := rfl

theorem ScafM.fsStep_app (f : FS → Except String FS) (pfx : String) (w : World) :
    ScafM.fsStep f pfx w
      = match f w.fs with
        | .ok fs1 => (.ok (), { w with fs := fs1 })
        | .error e => (.error (pfx ++ e), w) := rfl

theorem ScafM.runCmd_app (env : Env) (c : CmdSpec) (w : World) :
    ScafM.runCmd env c w
      = (.ok (env.runCmd w.cmds.length c w.fs).1,
         { w with fs := (env.runCmd w.cmds.length c w.fs).2, cmds := w.cmds ++ [c] }) := rfl

theorem ScafM.runToolStrict_events (env : Env) (c : CmdSpec) (pfx : String) (w : World) :
    (ScafM.runToolStrict env c pfx w).2.events = w.events := by
  unfold ScafM.runToolStrict
  simp only [ScafM.bind_app, ScafM.runCmd_app]
  cases (env.runCmd w.cmds.length c w.fs).1 with
  | error e => simp [ScafM.throwE_app]
  | ok out =>
    cases hos : out.success <;>
      simp [hos, ScafM.throwE_app, ScafM.pure_app]

theorem ScafM.runToolSpawnOnly_events (env : Env) (c : CmdSpec) (pfx : String) (w : World) :
    (ScafM.runToolSpawnOnly env c pfx w).2.events = w.events := by
  unfold ScafM.runToolSpawnOnly
  simp only [ScafM.bind_app, ScafM.runCmd_app]
  cases (env.runCmd w.cmds.length c w.fs).1 with
  | error e => simp [ScafM.throwE_app]
  | ok out => simp [ScafM.pure_app]

theorem ScafM.runIgnored_events (env : Env) (c : CmdSpec) (w : World) :
    (ScafM.runIgnored env c w).2.events = w.events ∧ (ScafM.runIgnored env c w).1 = .ok () := by
  unfold ScafM.runIgnored
  simp [ScafM.bind_app, ScafM.runCmd_app, ScafM.pure_app]

theorem springbootAttempt_inv (env : Env) (url : String) (zip : PathBuf) (w : World) :
    (springbootAttempt env url zip w).2.events = w.events
    ∧ ∃ r, (springbootAttempt env url zip w).1 = .ok r := by
  unfold springbootAttempt
  simp only [ScafM.bind_app, ScafM.runCmd_app]
  cases (env.runCmd w.cmds.length
      ⟨"powershell", ["-NoProfile", "-Command", downloadScript url zip], none⟩ w.fs).1 with
  | error e => simp [ScafM.pure_app]
  | ok out =>
    cases hos : out.success <;>
      simp [hos, ScafM.pure_app]

theorem retryLoopM_inv (op : ScafM (Except String Unit))
    (hop : ∀ w, (op w).2.events = w.events ∧ ∃ r, (op w).1 = .ok r) :
    ∀ (n : Nat) (w : World),
      (retryLoopM op n w).2.events = w.events ∧ ∃ r, (retryLoopM op n w).1 = .ok r := by
  intro n
  induction n with
  | zero => intro w; exact hop w
  | succ m ih =>
    intro w
    obtain ⟨hev, r, hr⟩ := hop w
    simp only [retryLoopM, ScafM.bind_app]
    cases hw : op w with
    | mk r1 w1 =>
      rw [hw] at hr hev
      simp only at hr hev
      subst hr
      cases r with
      | ok u => simp [ScafM.pure_app, hev]
      | error e =>
        obtain ⟨he2, hr2⟩ := ih w1
        rw [he2, hev]
        exact ⟨rfl, hr2⟩

theorem download_springboot_events (env : Env) (url : String) (zip : PathBuf) (w : World) :
    (download_springboot env url zip w).2.events
      = w.events ++ [TemplateProgress.downloading (.fin q0_2)
          "Downloading Spring Boot template..."] := by
  unfold download_springboot
  simp only [ScafM.bind_app, ScafM.emit_app]
  have hinv := retryLoopM_inv (springbootAttempt env url zip)
    (springbootAttempt_inv env url zip) RetryConfig.default.max_retries
  rcases hw : retry_with_backoffM (springbootAttempt env url zip) RetryConfig.default
      { w with events := w.events ++ [TemplateProgress.downloading (.fin q0_2)
          "Downloading Spring Boot template..."] } with ⟨r, w1⟩
  obtain ⟨hev, rr, hr⟩ := hinv _
  rw [show retryLoopM (springbootAttempt env url zip) RetryConfig.default.max_retries
        { w with events := w.events ++ [TemplateProgress.downloading (.fin q0_2)
            "Downloading Spring Boot template..."] }
      = (r, w1) from hw] at hev hr
  simp only at hev hr
  subst hr
  cases rr with
  | ok u => simp [ScafM.pure_app, hw, hev]
  | error e => simp [ScafM.throwE_app, hw, hev]

/-! ## Per-branch event traces -/

theorem except_unit_cases (x : Except String Unit) : x = .ok () ∨ ∃ e, x = .error e := by
  cases x with
  | ok u => exact Or.inl (by cases u; rfl)
  | error e => exact Or.inr ⟨e, rfl⟩

theorem branchReactNextjs_events (env : Env) (pn loc : String) (w : World) :
    (branchReactNextjs env pn loc w).2.events
      = w.events ++ [TemplateProgress.downloading (.fin q0_2) "Running create-next-app..."] := by
  unfold branchReactNextjs
  simp only [ScafM.bind_app, ScafM.emit_app]
  rw [ScafM.runToolStrict_events]

theorem branchVueVite_events (env : Env) (pn loc : String) (w : World) :
    (branchVueVite env pn loc w).2.events
      = w.events ++ [TemplateProgress.downloading (.fin q0_2) "Creating Vue project..."] := by
  unfold branchVueVite
  simp only [ScafM.bind_app, ScafM.emit_app]
  rw [ScafM.runToolStrict_events]

theorem branchAngular_events (env : Env) (pn loc : String) (w : World) :
    (branchAngular env pn loc w).2.events
      = w.events ++ [TemplateProgress.downloading (.fin q0_2) "Creating Angular project..."] := by
  unfold branchAngular
  simp only [ScafM.bind_app, ScafM.emit_app]
  rw [ScafM.runToolStrict_events]

theorem branchTauriReact_events (env : Env) (pn loc : String) (w : World) :
    (branchTauriReact env pn loc w).2.events
      = w.events ++ [TemplateProgress.downloading (.fin q0_2) "Creating Tauri project..."] := by
  unfold branchTauriReact
  simp only [ScafM.bind_app, ScafM.emit_app]
  rw [ScafM.runToolStrict_events]

theorem branchRustActix_events (env : Env) (pn loc : String) (fp : PathBuf) (w : World) :
    (branchRustActix env pn loc fp w).2.events
      = w.events ++ [TemplateProgress.downloading (.fin q0_2) "Creating Cargo project..."] := by
  unfold branchRustActix
  simp only [ScafM.bind_app, ScafM.emit_app]
  rcases hrt : ScafM.runToolSpawnOnly env
      ⟨"cmd", ["/C", "cargo", "new", pn], some [loc]⟩ "Failed to create Rust project: "
      { w with events := w.events ++ [TemplateProgress.downloading (.fin q0_2)
          "Creating Cargo project..."] } with ⟨rt, wt⟩
  have hev := ScafM.runToolSpawnOnly_events env
      ⟨"cmd", ["/C", "cargo", "new", pn], some [loc]⟩ "Failed to create Rust project: "
      { w with events := w.events ++ [TemplateProgress.downloading (.fin q0_2)
          "Creating Cargo project..."] }
  rw [hrt] at hev
  simp only at hev
  cases rt with
  | error e => exact hev
  | ok out =>
    simp only [ScafM.bind_app, ScafM.getFS_app]
    cases hrd : wt.fs.read_to_string (fp ++ ["Cargo.toml"]) with
    | error e => simp [hrd, ScafM.throwE_app, hev]
    | ok d =>
      simp only [hrd, ScafM.writeText, ScafM.fsStep_app]
      cases hwr : wt.fs.write (fp ++ ["Cargo.toml"])
          (.text (d.asString ++ "\nactix-web = \"4.0\"\n")) with
      | error e => simp [hwr, hev]
      | ok fs2 => simp [hwr, hev]

theorem ScafM.runIgnored_app (env : Env) (c : CmdSpec) (w : World) :
    ScafM.runIgnored env c w
      = (.ok (), { w with fs := (env.runCmd w.cmds.length c w.fs).2, cmds := w.cmds ++ [c] }) :=
  rfl
theorem branchReactVite_trace (env : Env) (fp : PathBuf) (w : World) :
    ((branchReactVite env fp w).1 = .ok ()
      ∧ (branchReactVite env fp w).2.events = w.events
          ++ [TemplateProgress.downloading (.fin q0_1) "Creating project structure...",
              TemplateProgress.installing (.fin q0_8) "Installing dependencies..."])
    ∨ ((∃ e, (branchReactVite env fp w).1 = .error e)
      ∧ (branchReactVite env fp w).2.events = w.events
          ++ [TemplateProgress.downloading (.fin q0_1) "Creating project structure..."]) := by
  unfold branchReactVite
  simp only [ScafM.bind_app, ScafM.emit_app, ScafM.create_dir_all, ScafM.writeText,
    ScafM.fsStep_app]
  cases h1 : w.fs.create_dir_all fp with
  | error e => simp only [h1]; exact Or.inr ⟨⟨_, rfl⟩, by simp⟩
  | ok fs1 =>
  simp only [h1]
  cases h2 : fs1.write (fp ++ ["package.json"]) (.text reactVitePackageJson) with
  | error e => simp only [h2]; exact Or.inr ⟨⟨_, rfl⟩, by simp⟩
  | ok fs2 =>
  simp only [h2]
  cases h3 : fs2.write (fp ++ ["tsconfig.json"]) (.text reactViteTsconfig) with
  | error e => simp only [h3]; exact Or.inr ⟨⟨_, rfl⟩, by simp⟩
  | ok fs3 =>
  simp only [h3]
  cases h4 : fs3.write (fp ++ ["tsconfig.node.json"]) (.text reactViteTsconfigNode) with
  | error e => simp only [h4]; exact Or.inr ⟨⟨_, rfl⟩, by simp⟩
  | ok fs4 =>
  simp only [h4]
  cases h5 : fs4.write (fp ++ ["vite.config.ts"]) (.text reactViteViteConfig) with
  | error e => simp only [h5]; exact Or.inr ⟨⟨_, rfl⟩, by simp⟩
  | ok fs5 =>
  simp only [h5]
  cases h6 : fs5.write (fp ++ ["index.html"]) (.text reactViteIndexHtml) with
  | error e => simp only [h6]; exact Or.inr ⟨⟨_, rfl⟩, by simp⟩
  | ok fs6 =>
  simp only [h6]
  cases h7 : fs6.create_dir_all (fp ++ ["src"]) with
  | error e => simp only [h7]; exact Or.inr ⟨⟨_, rfl⟩, by simp⟩
  | ok fs7 =>
  simp only [h7]
  cases h8 : fs7.write (fp ++ ["src", "main.tsx"]) (.text reactViteMainTsx) with
  | error e => simp only [h8]; exact Or.inr ⟨⟨_, rfl⟩, by simp⟩
  | ok fs8 =>
  simp only [h8]
  cases h9 : fs8.write (fp ++ ["src", "App.tsx"]) (.text reactViteAppTsx) with
  | error e => simp only [h9]; exact Or.inr ⟨⟨_, rfl⟩, by simp⟩
  | ok fs9 =>
  simp only [h9]
  cases h10 : fs9.write (fp ++ ["src", "index.css"]) (.text tailwindIndexCss) with
  | error e => simp only [h10]; exact Or.inr ⟨⟨_, rfl⟩, by simp⟩
  | ok fs10 =>
  simp only [h10]
  cases h11 : fs10.write (fp ++ ["src", "vite-env.d.ts"]) (.text viteEnvDts) with
  | error e => simp only [h11]; exact Or.inr ⟨⟨_, rfl⟩, by simp⟩
  | ok fs11 =>
  simp only [h11]
  cases h12 : fs11.write (fp ++ [".gitignore"]) (.text reactViteGitignore) with
  | error e => simp only [h12]; exact Or.inr ⟨⟨_, rfl⟩, by simp⟩
  | ok fs12 =>
  simp only [h12]
  simp only [ScafM.runIgnored_app]
  exact Or.inl ⟨by simp, by simp⟩
theorem branchNodeExpress_trace (env : Env) (pn : String) (fp : PathBuf) (w : World) :
    ((branchNodeExpress env pn fp w).1 = .ok ()
      ∧ (branchNodeExpress env pn fp w).2.events = w.events
          ++ [TemplateProgress.downloading (.fin q0_1) "Creating project structure...",
              TemplateProgress.installing (.fin q0_8) "Installing dependencies..."])
    ∨ ((∃ e, (branchNodeExpress env pn fp w).1 = .error e)
      ∧ (branchNodeExpress env pn fp w).2.events = w.events
          ++ [TemplateProgress.downloading (.fin q0_1) "Creating project structure..."]) := by
  unfold branchNodeExpress
  simp only [ScafM.bind_app, ScafM.emit_app, ScafM.create_dir_all, ScafM.writeText,
    ScafM.fsStep_app]
  cases h1 : w.fs.create_dir_all fp with
  | error e => simp only [h1]; exact Or.inr ⟨⟨_, rfl⟩, by simp⟩
  | ok fs1 =>
  simp only [h1]
  cases h2 : fs1.write (fp ++ ["package.json"]) (.text nodeExpressPackageJson) with
  | error e => simp only [h2]; exact Or.inr ⟨⟨_, rfl⟩, by simp⟩
  | ok fs2 =>
  simp only [h2]
  cases h3 : fs2.write (fp ++ ["tsconfig.json"]) (.text nodeExpressTsconfig) with
  | error e => simp only [h3]; exact Or.inr ⟨⟨_, rfl⟩, by simp⟩
  | ok fs3 =>
  simp only [h3]
  cases h4 : fs3.write (fp ++ [".gitignore"]) (.text nodeExpressGitignore) with
  | error e => simp only [h4]; exact Or.inr ⟨⟨_, rfl⟩, by simp⟩
  | ok fs4 =>
  simp only [h4]
  cases h5 : fs4.write (fp ++ ["README.md"]) (.text (nodeExpressReadme pn)) with
  | error e => simp only [h5]; exact Or.inr ⟨⟨_, rfl⟩, by simp⟩
  | ok fs5 =>
  simp only [h5]
  cases h6 : fs5.create_dir_all (fp ++ ["src"]) with
  | error e => simp only [h6]; exact Or.inr ⟨⟨_, rfl⟩, by simp⟩
  | ok fs6 =>
  simp only [h6]
  cases h7 : fs6.write (fp ++ ["src", "index.ts"]) (.text nodeExpressIndexTs) with
  | error e => simp only [h7]; exact Or.inr ⟨⟨_, rfl⟩, by simp⟩
  | ok fs7 =>
  simp only [h7]
  simp only [ScafM.runIgnored_app]
  exact Or.inl ⟨by simp, by simp⟩
theorem branchFastapi_trace (env : Env) (pn : String) (fp : PathBuf) (w : World) :
    ((branchFastapi env pn fp w).1 = .ok ()
      ∧ (branchFastapi env pn fp w).2.events = w.events
          ++ [TemplateProgress.downloading (.fin q0_1) "Creating project structure...",
              TemplateProgress.installing (.fin q0_8) "Setting up virtual environment..."])
    ∨ ((∃ e, (branchFastapi env pn fp w).1 = .error e)
      ∧ (branchFastapi env pn fp w).2.events = w.events
          ++ [TemplateProgress.downloading (.fin q0_1) "Creating project structure..."]) := by
  unfold branchFastapi
  simp only [ScafM.bind_app, ScafM.emit_app, ScafM.create_dir_all, ScafM.writeText,
    ScafM.fsStep_app]
  cases h1 : w.fs.create_dir_all fp with
  | error e => simp only [h1]; exact Or.inr ⟨⟨_, rfl⟩, by simp⟩
  | ok fs1 =>
  simp only [h1]
  cases h2 : fs1.write (fp ++ ["requirements.txt"]) (.text fastapiRequirements) with
  | error e => simp only [h2]; exact Or.inr ⟨⟨_, rfl⟩, by simp⟩
  | ok fs2 =>
  simp only [h2]
  cases h3 : fs2.write (fp ++ [".gitignore"]) (.text fastapiGitignore) with
  | error e => simp only [h3]; exact Or.inr ⟨⟨_, rfl⟩, by simp⟩
  | ok fs3 =>
  simp only [h3]
  cases h4 : fs3.write (fp ++ ["README.md"]) (.text (fastapiReadme pn)) with
  | error e => simp only [h4]; exact Or.inr ⟨⟨_, rfl⟩, by simp⟩
  | ok fs4 =>
  simp only [h4]
  cases h5 : fs4.create_dir_all (fp ++ ["app"]) with
  | error e => simp only [h5]; exact Or.inr ⟨⟨_, rfl⟩, by simp⟩
  | ok fs5 =>
  simp only [h5]
  cases h6 : fs5.write (fp ++ ["app", "main.py"]) (.text fastapiMainPy) with
  | error e => simp only [h6]; exact Or.inr ⟨⟨_, rfl⟩, by simp⟩
  | ok fs6 =>
  simp only [h6]
  simp only [ScafM.runIgnored_app]
  exact Or.inl ⟨by simp, by simp⟩

/-! ## Signatures of the concrete events -/

theorem esig_initializing (m : String) :
    esig (TemplateProgress.initializing m) = (.Initializing, F32.fin 0) := rfl

theorem esig_complete (m : String) :
    esig (TemplateProgress.complete m) = (.Complete, F32.fin 1) := rfl

theorem esig_error (m : String) :
    esig (TemplateProgress.error m) = (.Error, F32.fin 0) := rfl

theorem esig_d01 (m : String) :
    esig (TemplateProgress.downloading (.fin q0_1) m) = (.Downloading, F32.fin q0_1) := rfl

theorem esig_d02 (m : String) :
    esig (TemplateProgress.downloading (.fin q0_2) m) = (.Downloading, F32.fin q0_2) := rfl

theorem esig_d05 (m : String) :
    esig (TemplateProgress.downloading (.fin q0_5) m) = (.Downloading, F32.fin q0_5) := rfl

theorem esig_d1 (m : String) :
    esig (TemplateProgress.downloading (.fin 1) m) = (.Downloading, F32.fin 1) := rfl

theorem esig_e06 (m : String) :
    esig (TemplateProgress.extracting (.fin q0_6) m) = (.Extracting, F32.fin q0_6) := rfl

theorem esig_i02 (m : String) :
    esig (TemplateProgress.installing (.fin q0_2) m) = (.Installing, F32.fin q0_2) := rfl

theorem esig_i08 (m : String) :
    esig (TemplateProgress.installing (.fin q0_8) m) = (.Installing, F32.fin q0_8) := rfl

theorem esig_i09 (m : String) :
    esig (TemplateProgress.installing (.fin q0_9) m) = (.Installing, F32.fin q0_9) := rfl

/-! ## springboot phase traces -/

theorem springbootFetch_events (env : Env) (pn loc : String) (w : World) :
    (springbootFetch env pn loc w).2.events
        = w.events ++ [TemplateProgress.downloading (.fin 1) "Using cached template..."]
    ∨ (springbootFetch env pn loc w).2.events
        = w.events ++ [TemplateProgress.downloading (.fin q0_2)
            "Downloading Spring Boot template..."] := by
  unfold springbootFetch
  simp only [ScafM.bind_app, ScafM.getFS_app, ScafM.emit_app, ScafM.copyFile,
      ScafM.fsStep_app, ScafM.fsSet_app, ScafM.pure_app, Except.toOption, Option.map_some',
      Option.map_none', if_true, if_false, Bool.false_eq_true]
  cases h2 : TemplateCache.new env.appDataDir w.fs with
  | ok p =>
    rcases p with ⟨c0, fsB⟩
    simp only [h2, ScafM.bind_app, ScafM.getFS_app, ScafM.emit_app, ScafM.copyFile,
      ScafM.fsStep_app, ScafM.fsSet_app, ScafM.pure_app, Except.toOption, Option.map_some',
      Option.map_none', if_true, if_false, Bool.false_eq_true]
    cases h3 : c0.get "springboot" ("v1-" ++ ((env.urlHash (springbootUrl pn)).take 16)) with
    | some path =>
      simp only [h3, ScafM.bind_app, ScafM.getFS_app, ScafM.emit_app, ScafM.copyFile,
      ScafM.fsStep_app, ScafM.fsSet_app, ScafM.pure_app, Except.toOption, Option.map_some',
      Option.map_none', if_true, if_false, Bool.false_eq_true]
      cases h4 : fsB.existsPath path with
      | true =>
        simp only [h4, ScafM.bind_app, ScafM.getFS_app, ScafM.emit_app, ScafM.copyFile,
      ScafM.fsStep_app, ScafM.fsSet_app, ScafM.pure_app, Except.toOption, Option.map_some',
      Option.map_none', if_true, if_false, Bool.false_eq_true]
        cases h5 : fsB.copy path [loc, pn ++ ".zip"] with
        | error e => simp only [h5]; exact Or.inl (by simp)
        | ok fsC => simp only [h5]; exact Or.inl (by simp)
      | false =>
        simp only [h4, ScafM.bind_app, ScafM.getFS_app, ScafM.emit_app, ScafM.copyFile,
      ScafM.fsStep_app, ScafM.fsSet_app, ScafM.pure_app, Except.toOption, Option.map_some',
      Option.map_none', if_true, if_false, Bool.false_eq_true]
        rcases hdl : download_springboot env (springbootUrl pn) [loc, pn ++ ".zip"]
            { w with fs := fsB } with ⟨rd, wd⟩
        have hev := download_springboot_events env (springbootUrl pn) [loc, pn ++ ".zip"]
            { w with fs := fsB }
        rw [hdl] at hev
        exact Or.inr hev
    | none =>
      simp only [h3, ScafM.bind_app, ScafM.getFS_app, ScafM.emit_app, ScafM.copyFile,
      ScafM.fsStep_app, ScafM.fsSet_app, ScafM.pure_app, Except.toOption, Option.map_some',
      Option.map_none', if_true, if_false, Bool.false_eq_true]
      rcases hdl : download_springboot env (springbootUrl pn) [loc, pn ++ ".zip"]
          { w with fs := fsB } with ⟨rd, wd⟩
      have hev := download_springboot_events env (springbootUrl pn) [loc, pn ++ ".zip"]
          { w with fs := fsB }
      rw [hdl] at hev
      cases rd with
      | error e => exact Or.inr hev
      | ok u =>
        simp only [ScafM.bind_app, ScafM.getFS_app, ScafM.emit_app, ScafM.copyFile,
      ScafM.fsStep_app, ScafM.fsSet_app, ScafM.pure_app, Except.toOption, Option.map_some',
      Option.map_none', if_true, if_false, Bool.false_eq_true]
        cases h6 : c0.store wd.fs "springboot"
            ("v1-" ++ ((env.urlHash (springbootUrl pn)).take 16)) [loc, pn ++ ".zip"]
            env.now with
        | error e => simp only [h6, ScafM.bind_app, ScafM.getFS_app, ScafM.emit_app, ScafM.copyFile,
      ScafM.fsStep_app, ScafM.fsSet_app, ScafM.pure_app, Except.toOption, Option.map_some',
      Option.map_none', if_true, if_false, Bool.false_eq_true]; exact Or.inr hev
        | ok p2 =>
          rcases p2 with ⟨c2, fsD⟩
          simp only [h6, ScafM.bind_app, ScafM.getFS_app, ScafM.emit_app, ScafM.copyFile,
      ScafM.fsStep_app, ScafM.fsSet_app, ScafM.pure_app, Except.toOption, Option.map_some',
      Option.map_none', if_true, if_false, Bool.false_eq_true]
          exact Or.inr hev
  | error err0 =>
    simp only [h2, ScafM.bind_app, ScafM.getFS_app, ScafM.emit_app, ScafM.copyFile,
      ScafM.fsStep_app, ScafM.fsSet_app, ScafM.pure_app, Except.toOption, Option.map_some',
      Option.map_none', if_true, if_false, Bool.false_eq_true]
    rcases hdl : download_springboot env (springbootUrl pn) [loc, pn ++ ".zip"]
        w with ⟨rd, wd⟩
    have hev := download_springboot_events env (springbootUrl pn) [loc, pn ++ ".zip"] w
    rw [hdl] at hev
    cases rd with
    | error e => exact Or.inr hev
    | ok u => simp only [ScafM.bind_app, ScafM.getFS_app, ScafM.emit_app, ScafM.copyFile,
      ScafM.fsStep_app, ScafM.fsSet_app, ScafM.pure_app, Except.toOption, Option.map_some',
      Option.map_none', if_true, if_false, Bool.false_eq_true]; exact Or.inr hev

def sInit : ProgressStage × F32 := (.Initializing, .fin 0)
def sDCached : ProgressStage × F32 := (.Downloading, .fin 1)
def sDNet : ProgressStage × F32 := (.Downloading, .fin q0_2)
def sExtract : ProgressStage × F32 := (.Extracting, .fin q0_6)
def sVerify : ProgressStage × F32 := (.Installing, .fin q0_9)
def sError0 : ProgressStage × F32 := (.Error, .fin 0)
def sComplete : ProgressStage × F32 := (.Complete, .fin 1)
def sD01 : ProgressStage × F32 := (.Downloading, .fin q0_1)
def sD05 : ProgressStage × F32 := (.Downloading, .fin q0_5)
def sI02 : ProgressStage × F32 := (.Installing, .fin q0_2)
def sI08 : ProgressStage × F32 := (.Installing, .fin q0_8)

theorem springbootExtract_trace (env : Env) (loc zf : String) (fp : PathBuf) (fps : String)
    (w : World) :
    ((springbootExtract env loc zf fp fps w).1 = .ok ()
      ∧ (springbootExtract env loc zf fp fps w).2.events = w.events
          ++ [TemplateProgress.extracting (.fin q0_6) "Extracting files...",
              TemplateProgress.installing (.fin q0_9) "Verifying project structure..."])
    ∨ ((∃ e, (springbootExtract env loc zf fp fps w).1 = .error e)
      ∧ ((springbootExtract env loc zf fp fps w).2.events = w.events
            ++ [TemplateProgress.extracting (.fin q0_6) "Extracting files..."]
        ∨ (∃ m, (springbootExtract env loc zf fp fps w).2.events = w.events
            ++ [TemplateProgress.extracting (.fin q0_6) "Extracting files...",
                TemplateProgress.error m])
        ∨ (∃ m, (springbootExtract env loc zf fp fps w).2.events = w.events
            ++ [TemplateProgress.extracting (.fin q0_6) "Extracting files...",
                TemplateProgress.installing (.fin q0_9) "Verifying project structure...",
                TemplateProgress.error m]))) := by
  unfold springbootExtract
  simp only [ScafM.bind_app, ScafM.getFS_app, ScafM.emit_app, ScafM.runCmd_app,
    ScafM.runIgnored_app, ScafM.throwE_app, ScafM.pure_app, if_true, if_false,
    Bool.false_eq_true]
  rcases hc1 : env.runCmd w.cmds.length
      ⟨"powershell", ["-NoProfile", "-Command", unzipScript zf], some [loc]⟩ w.fs
      with ⟨r1, fsA⟩
  simp only [ScafM.bind_app, ScafM.getFS_app, ScafM.emit_app, ScafM.runCmd_app,
    ScafM.runIgnored_app, ScafM.throwE_app, ScafM.pure_app]
  cases r1 with
  | error e =>
    simp only [ScafM.throwE_app]
    exact Or.inr ⟨⟨_, rfl⟩, Or.inl (by simp)⟩
  | ok out =>
    cases hos : out.success with
    | false =>
      simp only [hos, Bool.false_eq_true, if_false, ScafM.bind_app, ScafM.emit_app,
        ScafM.throwE_app]
      exact Or.inr ⟨⟨_, rfl⟩,
        Or.inr (Or.inl ⟨"Extraction failed: " ++ out.stderr, by simp⟩)⟩
    | true =>
      simp only [hos, if_true, ScafM.pure_app, ScafM.bind_app, ScafM.emit_app,
        ScafM.runIgnored_app, ScafM.getFS_app, ScafM.throwE_app]
      cases hex : ((env.runCmd (w.cmds
          ++ [(⟨"powershell", ["-NoProfile", "-Command", unzipScript zf],
               some [loc]⟩ : CmdSpec)]).length
          (⟨"powershell", ["-NoProfile", "-Command", removeScript zf],
            some [loc]⟩ : CmdSpec) fsA).2).existsPath fp with
      | true =>
        simp only [hex, if_true, ScafM.pure_app]
        exact Or.inl ⟨by simp, by simp⟩
      | false =>
        simp only [hex, Bool.false_eq_true, if_false, ScafM.bind_app, ScafM.emit_app,
          ScafM.throwE_app]
        exact Or.inr ⟨⟨_, rfl⟩, Or.inr (Or.inr ⟨"Project directory not found", by simp⟩)⟩

theorem branchSpringboot_trace (env : Env) (pn loc : String) (fp : PathBuf) (fps : String)
    (w : World) :
    ((branchSpringboot env pn loc fp fps w).1 = .ok ()
      ∧ ((branchSpringboot env pn loc fp fps w).2.events.map esig
            = w.events.map esig ++ [sInit, sDCached, sExtract, sVerify]
        ∨ (branchSpringboot env pn loc fp fps w).2.events.map esig
            = w.events.map esig ++ [sInit, sDNet, sExtract, sVerify]))
    ∨ ((∃ e, (branchSpringboot env pn loc fp fps w).1 = .error e)
      ∧ (branchSpringboot env pn loc fp fps w).2.events.map esig
          ∈ [w.events.map esig ++ [sInit],
             w.events.map esig ++ [sInit, sDCached],
             w.events.map esig ++ [sInit, sDNet],
             w.events.map esig ++ [sInit, sDCached, sExtract],
             w.events.map esig ++ [sInit, sDNet, sExtract],
             w.events.map esig ++ [sInit, sDCached, sExtract, sError0],
             w.events.map esig ++ [sInit, sDNet, sExtract, sError0],
             w.events.map esig ++ [sInit, sDCached, sExtract, sVerify, sError0],
             w.events.map esig ++ [sInit, sDNet, sExtract, sVerify, sError0]]) := by
  unfold branchSpringboot
  simp only [ScafM.bind_app, ScafM.emit_app, ScafM.create_dir_all, ScafM.fsStep_app]
  cases h1 : w.fs.create_dir_all [loc] with
  | error e =>
    simp only [h1]
    refine Or.inr ⟨⟨_, rfl⟩, ?_⟩
    simp [esig_initializing, sInit]
  | ok fsA =>
  simp only [h1, ScafM.bind_app]
  rcases hf : springbootFetch env pn loc { w with fs := fsA, events := w.events ++ [TemplateProgress.initializing "Creating Spring Boot project..."] } with ⟨rf, wf⟩
  have hfev := springbootFetch_events env pn loc { w with fs := fsA, events := w.events ++ [TemplateProgress.initializing "Creating Spring Boot project..."] }
  rw [hf] at hfev
  simp only at hfev
  cases rf with
  | error e =>
    refine Or.inr ⟨⟨e, rfl⟩, ?_⟩
    rcases hfev with h | h <;>
      simp [h, esig_initializing, esig_d1, esig_d02, sInit, sDCached, sDNet]
  | ok u =>
    have hx := springbootExtract_trace env loc (pn ++ ".zip") fp fps wf
    rcases hx with ⟨hok, hev⟩ | ⟨⟨e, herr⟩, hcs⟩
    · refine Or.inl ⟨hok, ?_⟩
      rcases hfev with h | h <;>
        simp [hev, h, esig_initializing, esig_d1, esig_d02, esig_e06, esig_i09,
          sInit, sDCached, sDNet, sExtract, sVerify]
    · refine Or.inr ⟨⟨e, herr⟩, ?_⟩
      rcases hcs with h2 | ⟨m, h2⟩ | ⟨m, h2⟩ <;>
        rcases hfev with h | h <;>
        simp [h2, h, esig_initializing, esig_d1, esig_d02, esig_e06, esig_i09, esig_error,
          sInit, sDCached, sDNet, sExtract, sVerify, sError0]

theorem branchDjango_trace (env : Env) (pn loc : String) (w : World) :
    ((branchDjango env pn loc w).1 = .ok ()
      ∧ (branchDjango env pn loc w).2.events = w.events
          ++ [TemplateProgress.installing (.fin q0_2) "Installing Django...",
              TemplateProgress.downloading (.fin q0_5) "Creating Django project..."])
    ∨ ((∃ e, (branchDjango env pn loc w).1 = .error e)
      ∧ ((branchDjango env pn loc w).2.events = w.events
            ++ [TemplateProgress.installing (.fin q0_2) "Installing Django..."]
        ∨ (branchDjango env pn loc w).2.events = w.events
            ++ [TemplateProgress.installing (.fin q0_2) "Installing Django...",
                TemplateProgress.downloading (.fin q0_5) "Creating Django project..."])) := by
  unfold branchDjango
  simp only [ScafM.runToolSpawnOnly, ScafM.bind_app, ScafM.emit_app, ScafM.runCmd_app,
    ScafM.throwE_app, ScafM.pure_app]
  rcases hc1 : env.runCmd w.cmds.length
      (⟨"cmd", ["/C", "pip", "install", "django"], none⟩ : CmdSpec) w.fs with ⟨r1, fsA⟩
  simp only [ScafM.bind_app, ScafM.emit_app, ScafM.runCmd_app, ScafM.throwE_app,
    ScafM.pure_app]
  cases r1 with
  | error e =>
    simp only [ScafM.throwE_app]
    exact Or.inr ⟨⟨_, rfl⟩, Or.inl (by simp)⟩
  | ok out1 =>
    simp only [ScafM.pure_app, ScafM.bind_app, ScafM.emit_app, ScafM.runCmd_app]
    rcases hc2 : env.runCmd (w.cmds
        ++ [(⟨"cmd", ["/C", "pip", "install", "django"], none⟩ : CmdSpec)]).length
        (⟨"cmd", ["/C", "django-admin", "startproject", pn], some [loc]⟩ : CmdSpec) fsA
        with ⟨r2, fsB⟩
    cases r2 with
    | error e =>
      simp only [ScafM.throwE_app]
      exact Or.inr ⟨⟨_, rfl⟩, Or.inr (by simp)⟩
    | ok out2 =>
      simp only [ScafM.pure_app]
      exact Or.inl ⟨by simp, by simp⟩

/-! ## The master trace characterization of create_project_from_template -/

/-- Stage/progress traces of the invocations that return Ok. -/
def okSigLists : List (List (ProgressStage × F32)) :=
  [[sInit, sD01, sI08, sComplete],
   [sInit, sDNet, sComplete],
   [sInit, sInit, sDCached, sExtract, sVerify, sComplete],
   [sInit, sInit, sDNet, sExtract, sVerify, sComplete],
   [sInit, sI02, sD05, sComplete]]

/-- Stage/progress traces of the invocations that return Err. -/
def errSigLists : List (List (ProgressStage × F32)) :=
  [[sInit],
   [sInit, sD01],
   [sInit, sDNet],
   [sInit, sI02],
   [sInit, sI02, sD05],
   [sInit, sInit],
   [sInit, sInit, sDCached],
   [sInit, sInit, sDNet],
   [sInit, sInit, sDCached, sExtract],
   [sInit, sInit, sDNet, sExtract],
   [sInit, sInit, sDCached, sExtract, sError0],
   [sInit, sInit, sDNet, sExtract, sError0],
   [sInit, sInit, sDCached, sExtract, sVerify, sError0],
   [sInit, sInit, sDNet, sExtract, sVerify, sError0]]

/-- Every invocation, over every environment, produces one of finitely many
stage/progress traces, split by whether the result is Ok or Err. -/
theorem runCreate_sigs (env : Env) (tid pn loc : String) (fs : FS) :
    ((runCreate env tid pn loc fs).1.isOk = true
      ∧ (runCreate env tid pn loc fs).2.events.map esig ∈ okSigLists)
    ∨ ((runCreate env tid pn loc fs).1.isOk = false
      ∧ (runCreate env tid pn loc fs).2.events.map esig ∈ errSigLists) := by
  unfold runCreate create_project_from_template
  simp only [ScafM.bind_app, ScafM.emit_app, List.nil_append]
  by_cases h1 : tid = "react-vite"
  · rw [if_pos h1]
    rcases hb : branchReactVite env [loc, pn] ({ fs := fs, events := [TemplateProgress.initializing "Preparing project..."], cmds := [] } : World) with ⟨rb, wb⟩
    have hl := branchReactVite_trace env [loc, pn] ({ fs := fs, events := [TemplateProgress.initializing "Preparing project..."], cmds := [] } : World)
    rw [hb] at hl
    simp only at hl
    cases rb with
    | ok u =>
      rcases hl with ⟨-, hev⟩ | ⟨⟨e, herr⟩, -⟩
      · exact Or.inl ⟨rfl, by simp [hev, ScafM.pure_app, esig_initializing, esig_complete, esig_error, esig_d01, esig_d02, esig_d05, esig_d1, esig_e06, esig_i02, esig_i08, esig_i09, okSigLists, errSigLists, sInit, sDCached, sDNet, sExtract, sVerify, sError0, sComplete, sD01, sD05, sI02, sI08]⟩
      · exact absurd herr (by simp)
    | error e2 =>
      rcases hl with ⟨hok, -⟩ | ⟨-, hev⟩
      · exact absurd hok (by simp)
      · exact Or.inr ⟨rfl, by simp [hev, ScafM.pure_app, esig_initializing, esig_complete, esig_error, esig_d01, esig_d02, esig_d05, esig_d1, esig_e06, esig_i02, esig_i08, esig_i09, okSigLists, errSigLists, sInit, sDCached, sDNet, sExtract, sVerify, sError0, sComplete, sD01, sD05, sI02, sI08]⟩
  rw [if_neg h1]
  by_cases h2 : tid = "react-nextjs"
  · rw [if_pos h2]
    rcases hb : branchReactNextjs env pn loc ({ fs := fs, events := [TemplateProgress.initializing "Preparing project..."], cmds := [] } : World) with ⟨rb, wb⟩
    have hev := branchReactNextjs_events env pn loc ({ fs := fs, events := [TemplateProgress.initializing "Preparing project..."], cmds := [] } : World)
    rw [hb] at hev
    simp only at hev
    cases rb with
    | ok u => exact Or.inl ⟨rfl, by simp [hev, ScafM.pure_app, esig_initializing, esig_complete, esig_error, esig_d01, esig_d02, esig_d05, esig_d1, esig_e06, esig_i02, esig_i08, esig_i09, okSigLists, errSigLists, sInit, sDCached, sDNet, sExtract, sVerify, sError0, sComplete, sD01, sD05, sI02, sI08]⟩
    | error e2 => exact Or.inr ⟨rfl, by simp [hev, ScafM.pure_app, esig_initializing, esig_complete, esig_error, esig_d01, esig_d02, esig_d05, esig_d1, esig_e06, esig_i02, esig_i08, esig_i09, okSigLists, errSigLists, sInit, sDCached, sDNet, sExtract, sVerify, sError0, sComplete, sD01, sD05, sI02, sI08]⟩
  rw [if_neg h2]
  by_cases h3 : tid = "vue-vite"
  · rw [if_pos h3]
    rcases hb : branchVueVite env pn loc ({ fs := fs, events := [TemplateProgress.initializing "Preparing project..."], cmds := [] } : World) with ⟨rb, wb⟩
    have hev := branchVueVite_events env pn loc ({ fs := fs, events := [TemplateProgress.initializing "Preparing project..."], cmds := [] } : World)
    rw [hb] at hev
    simp only at hev
    cases rb with
    | ok u => exact Or.inl ⟨rfl, by simp [hev, ScafM.pure_app, esig_initializing, esig_complete, esig_error, esig_d01, esig_d02, esig_d05, esig_d1, esig_e06, esig_i02, esig_i08, esig_i09, okSigLists, errSigLists, sInit, sDCached, sDNet, sExtract, sVerify, sError0, sComplete, sD01, sD05, sI02, sI08]⟩
    | error e2 => exact Or.inr ⟨rfl, by simp [hev, ScafM.pure_app, esig_initializing, esig_complete, esig_error, esig_d01, esig_d02, esig_d05, esig_d1, esig_e06, esig_i02, esig_i08, esig_i09, okSigLists, errSigLists, sInit, sDCached, sDNet, sExtract, sVerify, sError0, sComplete, sD01, sD05, sI02, sI08]⟩
  rw [if_neg h3]
  by_cases h4 : tid = "angular"
  · rw [if_pos h4]
    rcases hb : branchAngular env pn loc ({ fs := fs, events := [TemplateProgress.initializing "Preparing project..."], cmds := [] } : World) with ⟨rb, wb⟩
    have hev := branchAngular_events env pn loc ({ fs := fs, events := [TemplateProgress.initializing "Preparing project..."], cmds := [] } : World)
    rw [hb] at hev
    simp only at hev
    cases rb with
    | ok u => exact Or.inl ⟨rfl, by simp [hev, ScafM.pure_app, esig_initializing, esig_complete, esig_error, esig_d01, esig_d02, esig_d05, esig_d1, esig_e06, esig_i02, esig_i08, esig_i09, okSigLists, errSigLists, sInit, sDCached, sDNet, sExtract, sVerify, sError0, sComplete, sD01, sD05, sI02, sI08]⟩
    | error e2 => exact Or.inr ⟨rfl, by simp [hev, ScafM.pure_app, esig_initializing, esig_complete, esig_error, esig_d01, esig_d02, esig_d05, esig_d1, esig_e06, esig_i02, esig_i08, esig_i09, okSigLists, errSigLists, sInit, sDCached, sDNet, sExtract, sVerify, sError0, sComplete, sD01, sD05, sI02, sI08]⟩
  rw [if_neg h4]
  by_cases h5 : tid = "node-express"
  · rw [if_pos h5]
    rcases hb : branchNodeExpress env pn [loc, pn] ({ fs := fs, events := [TemplateProgress.initializing "Preparing project..."], cmds := [] } : World) with ⟨rb, wb⟩
    have hl := branchNodeExpress_trace env pn [loc, pn] ({ fs := fs, events := [TemplateProgress.initializing "Preparing project..."], cmds := [] } : World)
    rw [hb] at hl
    simp only at hl
    cases rb with
    | ok u =>
      rcases hl with ⟨-, hev⟩ | ⟨⟨e, herr⟩, -⟩
      · exact Or.inl ⟨rfl, by simp [hev, ScafM.pure_app, esig_initializing, esig_complete, esig_error, esig_d01, esig_d02, esig_d05, esig_d1, esig_e06, esig_i02, esig_i08, esig_i09, okSigLists, errSigLists, sInit, sDCached, sDNet, sExtract, sVerify, sError0, sComplete, sD01, sD05, sI02, sI08]⟩
      · exact absurd herr (by simp)
    | error e2 =>
      rcases hl with ⟨hok, -⟩ | ⟨-, hev⟩
      · exact absurd hok (by simp)
      · exact Or.inr ⟨rfl, by simp [hev, ScafM.pure_app, esig_initializing, esig_complete, esig_error, esig_d01, esig_d02, esig_d05, esig_d1, esig_e06, esig_i02, esig_i08, esig_i09, okSigLists, errSigLists, sInit, sDCached, sDNet, sExtract, sVerify, sError0, sComplete, sD01, sD05, sI02, sI08]⟩
  rw [if_neg h5]
  by_cases h6 : tid = "springboot"
  · rw [if_pos h6]
    rcases hb : branchSpringboot env pn loc [loc, pn] (pathToString [loc, pn]) ({ fs := fs, events := [TemplateProgress.initializing "Preparing project..."], cmds := [] } : World) with ⟨rb, wb⟩
    have hl := branchSpringboot_trace env pn loc [loc, pn] (pathToString [loc, pn]) ({ fs := fs, events := [TemplateProgress.initializing "Preparing project..."], cmds := [] } : World)
    rw [hb] at hl
    simp only at hl
    cases rb with
    | ok u =>
      rcases hl with ⟨-, hev | hev⟩ | ⟨⟨e, herr⟩, -⟩
      · exact Or.inl ⟨rfl, by simp [hev, ScafM.pure_app, esig_initializing, esig_complete, esig_error, esig_d01, esig_d02, esig_d05, esig_d1, esig_e06, esig_i02, esig_i08, esig_i09, okSigLists, errSigLists, sInit, sDCached, sDNet, sExtract, sVerify, sError0, sComplete, sD01, sD05, sI02, sI08]⟩
      · exact Or.inl ⟨rfl, by simp [hev, ScafM.pure_app, esig_initializing, esig_complete, esig_error, esig_d01, esig_d02, esig_d05, esig_d1, esig_e06, esig_i02, esig_i08, esig_i09, okSigLists, errSigLists, sInit, sDCached, sDNet, sExtract, sVerify, sError0, sComplete, sD01, sD05, sI02, sI08]⟩
      · exact absurd herr (by simp)
    | error e2 =>
      rcases hl with ⟨hok, -⟩ | ⟨-, hmem⟩
      · exact absurd hok (by simp)
      · refine Or.inr ⟨rfl, ?_⟩
        simp only [List.mem_cons, List.not_mem_nil, or_false] at hmem
        rcases hmem with h | h | h | h | h | h | h | h | h <;>
          simp [h, ScafM.pure_app, esig_initializing, esig_complete, esig_error, esig_d01, esig_d02, esig_d05, esig_d1, esig_e06, esig_i02, esig_i08, esig_i09, okSigLists, errSigLists, sInit, sDCached, sDNet, sExtract, sVerify, sError0, sComplete, sD01, sD05, sI02, sI08]
  rw [if_neg h6]
  by_cases h7 : tid = "fastapi"
  · rw [if_pos h7]
    rcases hb : branchFastapi env pn [loc, pn] ({ fs := fs, events := [TemplateProgress.initializing "Preparing project..."], cmds := [] } : World) with ⟨rb, wb⟩
    have hl := branchFastapi_trace env pn [loc, pn] ({ fs := fs, events := [TemplateProgress.initializing "Preparing project..."], cmds := [] } : World)
    rw [hb] at hl
    simp only at hl
    cases rb with
    | ok u =>
      rcases hl with ⟨-, hev⟩ | ⟨⟨e, herr⟩, -⟩
      · exact Or.inl ⟨rfl, by simp [hev, ScafM.pure_app, esig_initializing, esig_complete, esig_error, esig_d01, esig_d02, esig_d05, esig_d1, esig_e06, esig_i02, esig_i08, esig_i09, okSigLists, errSigLists, sInit, sDCached, sDNet, sExtract, sVerify, sError0, sComplete, sD01, sD05, sI02, sI08]⟩
      · exact absurd herr (by simp)
    | error e2 =>
      rcases hl with ⟨hok, -⟩ | ⟨-, hev⟩
      · exact absurd hok (by simp)
      · exact Or.inr ⟨rfl, by simp [hev, ScafM.pure_app, esig_initializing, esig_complete, esig_error, esig_d01, esig_d02, esig_d05, esig_d1, esig_e06, esig_i02, esig_i08, esig_i09, okSigLists, errSigLists, sInit, sDCached, sDNet, sExtract, sVerify, sError0, sComplete, sD01, sD05, sI02, sI08]⟩
  rw [if_neg h7]
  by_cases h8 : tid = "django"
  · rw [if_pos h8]
    rcases hb : branchDjango env pn loc ({ fs := fs, events := [TemplateProgress.initializing "Preparing project..."], cmds := [] } : World) with ⟨rb, wb⟩
    have hl := branchDjango_trace env pn loc ({ fs := fs, events := [TemplateProgress.initializing "Preparing project..."], cmds := [] } : World)
    rw [hb] at hl
    simp only at hl
    cases rb with
    | ok u =>
      rcases hl with ⟨-, hev⟩ | ⟨⟨e, herr⟩, -⟩
      · exact Or.inl ⟨rfl, by simp [hev, ScafM.pure_app, esig_initializing, esig_complete, esig_error, esig_d01, esig_d02, esig_d05, esig_d1, esig_e06, esig_i02, esig_i08, esig_i09, okSigLists, errSigLists, sInit, sDCached, sDNet, sExtract, sVerify, sError0, sComplete, sD01, sD05, sI02, sI08]⟩
      · exact absurd herr (by simp)
    | error e2 =>
      rcases hl with ⟨hok, -⟩ | ⟨-, hev | hev⟩
      · exact absurd hok (by simp)
      · exact Or.inr ⟨rfl, by simp [hev, ScafM.pure_app, esig_initializing, esig_complete, esig_error, esig_d01, esig_d02, esig_d05, esig_d1, esig_e06, esig_i02, esig_i08, esig_i09, okSigLists, errSigLists, sInit, sDCached, sDNet, sExtract, sVerify, sError0, sComplete, sD01, sD05, sI02, sI08]⟩
      · exact Or.inr ⟨rfl, by simp [hev, ScafM.pure_app, esig_initializing, esig_complete, esig_error, esig_d01, esig_d02, esig_d05, esig_d1, esig_e06, esig_i02, esig_i08, esig_i09, okSigLists, errSigLists, sInit, sDCached, sDNet, sExtract, sVerify, sError0, sComplete, sD01, sD05, sI02, sI08]⟩
  rw [if_neg h8]
  by_cases h9 : tid = "rust-actix"
  · rw [if_pos h9]
    rcases hb : branchRustActix env pn loc [loc, pn] ({ fs := fs, events := [TemplateProgress.initializing "Preparing project..."], cmds := [] } : World) with ⟨rb, wb⟩
    have hev := branchRustActix_events env pn loc [loc, pn] ({ fs := fs, events := [TemplateProgress.initializing "Preparing project..."], cmds := [] } : World)
    rw [hb] at hev
    simp only at hev
    cases rb with
    | ok u => exact Or.inl ⟨rfl, by simp [hev, ScafM.pure_app, esig_initializing, esig_complete, esig_error, esig_d01, esig_d02, esig_d05, esig_d1, esig_e06, esig_i02, esig_i08, esig_i09, okSigLists, errSigLists, sInit, sDCached, sDNet, sExtract, sVerify, sError0, sComplete, sD01, sD05, sI02, sI08]⟩
    | error e2 => exact Or.inr ⟨rfl, by simp [hev, ScafM.pure_app, esig_initializing, esig_complete, esig_error, esig_d01, esig_d02, esig_d05, esig_d1, esig_e06, esig_i02, esig_i08, esig_i09, okSigLists, errSigLists, sInit, sDCached, sDNet, sExtract, sVerify, sError0, sComplete, sD01, sD05, sI02, sI08]⟩
  rw [if_neg h9]
  by_cases h10 : tid = "tauri-react"
  · rw [if_pos h10]
    rcases hb : branchTauriReact env pn loc ({ fs := fs, events := [TemplateProgress.initializing "Preparing project..."], cmds := [] } : World) with ⟨rb, wb⟩
    have hev := branchTauriReact_events env pn loc ({ fs := fs, events := [TemplateProgress.initializing "Preparing project..."], cmds := [] } : World)
    rw [hb] at hev
    simp only at hev
    cases rb with
    | ok u => exact Or.inl ⟨rfl, by simp [hev, ScafM.pure_app, esig_initializing, esig_complete, esig_error, esig_d01, esig_d02, esig_d05, esig_d1, esig_e06, esig_i02, esig_i08, esig_i09, okSigLists, errSigLists, sInit, sDCached, sDNet, sExtract, sVerify, sError0, sComplete, sD01, sD05, sI02, sI08]⟩
    | error e2 => exact Or.inr ⟨rfl, by simp [hev, ScafM.pure_app, esig_initializing, esig_complete, esig_error, esig_d01, esig_d02, esig_d05, esig_d1, esig_e06, esig_i02, esig_i08, esig_i09, okSigLists, errSigLists, sInit, sDCached, sDNet, sExtract, sVerify, sError0, sComplete, sD01, sD05, sI02, sI08]⟩
  rw [if_neg h10]
  simp only [ScafM.throwE_app]
  exact Or.inr ⟨rfl, by simp [ScafM.pure_app, esig_initializing, esig_complete, esig_error, esig_d01, esig_d02, esig_d05, esig_d1, esig_e06, esig_i02, esig_i08, esig_i09, okSigLists, errSigLists, sInit, sDCached, sDNet, sExtract, sVerify, sError0, sComplete, sD01, sD05, sI02, sI08]⟩

theorem okSigLists_props : ∀ l ∈ okSigLists,
    countSig l .Complete = 1 ∧ countSig l .Error = 0
    ∧ monotoneSigsB (l.filter keepSig) = true := by decide

theorem errSigLists_props : ∀ l ∈ errSigLists,
    countSig l .Complete = 0 ∧ countSig l .Error ≤ 1
    ∧ monotoneSigsB (l.filter keepSig) = true := by decide

/-- C1 (amended): for every environment and input, an invocation of
`create_project_from_template` emits AT MOST one terminal event, and the
result is Ok exactly when a Complete event (then unique) was emitted; an Err
result comes with either one Error event or — on several failure paths, e.g.
an unknown template id (see the counterexample) — no terminal event at all. -/
theorem C1_terminal_events (env : Env) (template_id project_name location : String)
    (fs : FS) :
    countSig ((runCreate env template_id project_name location fs).2.events.map esig)
        .Complete
      = (if (runCreate env template_id project_name location fs).1.isOk then 1 else 0)
    ∧ countSig ((runCreate env template_id project_name location fs).2.events.map esig)
          .Complete
        + countSig ((runCreate env template_id project_name location fs).2.events.map esig)
          .Error ≤ 1 := by
  rcases runCreate_sigs env template_id project_name location fs with ⟨hok, hmem⟩ | ⟨hok, hmem⟩
  · obtain ⟨h1, h2, -⟩ := okSigLists_props _ hmem
    rw [hok, h1, h2]
    exact ⟨rfl, by omega⟩
  · obtain ⟨h1, h2, -⟩ := errSigLists_props _ hmem
    rw [hok, h1]
    exact ⟨rfl, by omega⟩

def cexEnv : Env :=
  { runCmd := fun _ _ fsx => (.ok ⟨true, "", ""⟩, fsx),
    appDataDir := ["app"], urlHash := fun _ => "h", now := 0 }

/-- C1 counterexample: an invocation with an unknown template id returns Err
yet emits NO terminal event at all (neither Complete nor Error), refuting
"exactly one terminal progress event is emitted" for every invocation. -/
theorem C1_counterexample :
    (runCreate cexEnv "no-such-template" "p" "loc" fsEmpty).1
        = .error ("Unknown template: " ++ "no-such-template")
    ∧ countSig ((runCreate cexEnv "no-such-template" "p" "loc" fsEmpty).2.events.map esig)
        .Complete = 0
    ∧ countSig ((runCreate cexEnv "no-such-template" "p" "loc" fsEmpty).2.events.map esig)
        .Error = 0 :=
  ⟨rfl, rfl, rfl⟩

/-- C2 (amended): within a single invocation the progress values of the
emitted events are non-decreasing once Error events (progress 0.0) and the
springboot cache-hit event ("Using cached template...", the only Downloading
event with progress 1.0) are excluded; that cache-hit event itself breaks
monotonicity (see the counterexample). -/
theorem C2_monotonic_progress (env : Env) (template_id project_name location : String)
    (fs : FS) :
    monotoneSigsB
      (((runCreate env template_id project_name location fs).2.events.map esig).filter
        keepSig) = true := by
  rcases runCreate_sigs env template_id project_name location fs with ⟨-, hmem⟩ | ⟨-, hmem⟩
  · exact (okSigLists_props _ hmem).2.2
  · exact (errSigLists_props _ hmem).2.2

def c2meta : CacheMetadata :=
  ⟨[("springboot",
     ⟨"springboot", "v1-0123456789abcdef", 0, ["app", "template_cache", "sb.zip"], 9⟩)]⟩

def c2fs : FS :=
  { fsEmpty with
    files := fun p =>
      if p = ["app", "template_cache", "metadata.json"] then some (.meta c2meta)
      else if p = ["app", "template_cache", "sb.zip"] then some (.bin 9) else none,
    dirs := fun p => decide (p = ["app", "template_cache"]) }

def c2env : Env :=
  { runCmd := fun _ _ fsx => (.ok ⟨true, "", ""⟩,
      { fsx with dirs := fun q => decide (q = ["loc", "p"]) || fsx.dirs q }),
    appDataDir := ["app"], urlHash := fun _ => "0123456789abcdefXYZ", now := 7 }

/-- C2 counterexample: a springboot invocation hitting the cache emits
`downloading 1.0` ("Using cached template...") followed by `extracting 0.6`,
so the progress sequence of a single invocation decreases. -/
theorem C2_counterexample :
    (runCreate c2env "springboot" "p" "loc" c2fs).2.events.map esig
      = [sInit, sInit, sDCached, sExtract, sVerify, sComplete]
    ∧ monotoneSigsB ((runCreate c2env "springboot" "p" "loc" c2fs).2.events.map esig)
      = false := by
  constructor
  · decide
  · decide

/-! ## C10: Initializing precedes validation -/

/-- C10: the Initializing event ("Preparing project...") is emitted before the
template id is validated: an invocation with an unknown template id still
emits that event and then returns `Unknown template: <id>` — the filesystem is
untouched and no subprocess is spawned. -/
theorem C10_init_before_validation (env : Env) (template_id project_name location : String)
    (fs : FS)
    (h : ¬ template_id ∈ (["react-vite", "react-nextjs", "vue-vite", "angular",
      "node-express", "springboot", "fastapi", "django", "rust-actix",
      "tauri-react"] : List String)) :
    runCreate env template_id project_name location fs
      = (.error ("Unknown template: " ++ template_id),
         { fs := fs, events := [TemplateProgress.initializing "Preparing project..."],
           cmds := [] }) := by
  simp only [List.mem_cons, List.not_mem_nil, or_false, not_or] at h
  obtain ⟨h1, h2, h3, h4, h5, h6, h7, h8, h9, h10⟩ := h
  unfold runCreate create_project_from_template
  simp only [ScafM.bind_app, ScafM.emit_app, List.nil_append, if_neg h1, if_neg h2,
    if_neg h3, if_neg h4, if_neg h5, if_neg h6, if_neg h7, if_neg h8, if_neg h9,
    if_neg h10, ScafM.throwE_app]

theorem C10_init_before_validation_witness :
    runCreate cexEnv "no-such" "p" "loc" fsEmpty
      = (.error ("Unknown template: " ++ "no-such"),
         { fs := fsEmpty, events := [TemplateProgress.initializing "Preparing project..."],
           cmds := [] }) :=
  C10_init_before_validation cexEnv "no-such" "p" "loc" fsEmpty (by decide)

/-! ## C8: inline generation tolerates dependency-install failure -/

/-- C8: for the inline-generation templates ("react-vite" and "node-express"),
as long as the filesystem write/create-directory operations succeed and the
spawned subprocesses do not modify the filesystem, the invocation returns Ok
with the project path and the generated files are present in the final
filesystem — whatever the dependency-install subprocess returns: its result
is discarded (`let _ = Command::..output();`), so a failing `npm install`
does not fail the operation (the witness runs an environment whose every
subprocess fails to spawn). -/
theorem C8_install_failure_tolerated (env : Env) (project_name location : String) (fs : FS)
    (hW : ∀ p, fs.failWrite p = none)
    (hC : ∀ p, fs.failCreateDir p = none)
    (hcmd : ∀ i c fsx, (env.runCmd i c fsx).2 = fsx) :
    ((runCreate env "react-vite" project_name location fs).1
        = .ok (pathToString [location, project_name])
      ∧ (runCreate env "react-vite" project_name location fs).2.fs.files
          [location, project_name, "package.json"] = some (.text reactVitePackageJson)
      ∧ (runCreate env "react-vite" project_name location fs).2.fs.files
          [location, project_name, "index.html"] = some (.text reactViteIndexHtml)
      ∧ (runCreate env "react-vite" project_name location fs).2.fs.files
          [location, project_name, "src", "App.tsx"] = some (.text reactViteAppTsx)
      ∧ (runCreate env "react-vite" project_name location fs).2.fs.files
          [location, project_name, "src", "main.tsx"] = some (.text reactViteMainTsx))
    ∧ ((runCreate env "node-express" project_name location fs).1
        = .ok (pathToString [location, project_name])
      ∧ (runCreate env "node-express" project_name location fs).2.fs.files
          [location, project_name, "package.json"] = some (.text nodeExpressPackageJson)
      ∧ (runCreate env "node-express" project_name location fs).2.fs.files
          [location, project_name, "src", "index.ts"] = some (.text nodeExpressIndexTs)
      ∧ (runCreate env "node-express" project_name location fs).2.fs.files
          [location, project_name, "README.md"]
            = some (.text (nodeExpressReadme project_name))) := by
  constructor
  · unfold runCreate create_project_from_template branchReactVite
    simp [ScafM.bind_app, ScafM.emit_app, ScafM.create_dir_all, ScafM.writeText,
      ScafM.fsStep_app, ScafM.runIgnored_app, ScafM.pure_app, FS.create_dir_all, FS.write,
      hW, hC, hcmd]
  · unfold runCreate create_project_from_template branchNodeExpress
    simp [ScafM.bind_app, ScafM.emit_app, ScafM.create_dir_all, ScafM.writeText,
      ScafM.fsStep_app, ScafM.runIgnored_app, ScafM.pure_app, FS.create_dir_all, FS.write,
      hW, hC, hcmd]

def w8env : Env :=
  { runCmd := fun _ _ fsx => (.error "program not found", fsx),
    appDataDir := ["app"], urlHash := fun _ => "h", now := 0 }

theorem C8_install_failure_tolerated_witness :
    (((runCreate w8env "react-vite" "p" "loc" fsEmpty).1
        = .ok (pathToString ["loc", "p"])
      ∧ (runCreate w8env "react-vite" "p" "loc" fsEmpty).2.fs.files
          ["loc", "p", "package.json"] = some (.text reactVitePackageJson)
      ∧ (runCreate w8env "react-vite" "p" "loc" fsEmpty).2.fs.files
          ["loc", "p", "index.html"] = some (.text reactViteIndexHtml)
      ∧ (runCreate w8env "react-vite" "p" "loc" fsEmpty).2.fs.files
          ["loc", "p", "src", "App.tsx"] = some (.text reactViteAppTsx)
      ∧ (runCreate w8env "react-vite" "p" "loc" fsEmpty).2.fs.files
          ["loc", "p", "src", "main.tsx"] = some (.text reactViteMainTsx))
    ∧ ((runCreate w8env "node-express" "p" "loc" fsEmpty).1
        = .ok (pathToString ["loc", "p"])
      ∧ (runCreate w8env "node-express" "p" "loc" fsEmpty).2.fs.files
          ["loc", "p", "package.json"] = some (.text nodeExpressPackageJson)
      ∧ (runCreate w8env "node-express" "p" "loc" fsEmpty).2.fs.files
          ["loc", "p", "src", "index.ts"] = some (.text nodeExpressIndexTs)
      ∧ (runCreate w8env "node-express" "p" "loc" fsEmpty).2.fs.files
          ["loc", "p", "README.md"] = some (.text (nodeExpressReadme "p")))) :=
  C8_install_failure_tolerated w8env "p" "loc" fsEmpty (fun _ => rfl) (fun _ => rfl)
    (fun _ _ _ => rfl)
